import Mathlib

/-!
Shallow embedding of the supply-chain discrete-event simulator
(`src/supply_chain/simulation/`): the event/state data model (`schema.py`),
the priority-queue scheduler and event handlers (`engine.py`), the delay
model (`delays.py`), the TSPLIB parser (`tsplib_parser.py`) and the graph
builder (`graph.py`).

Modelling conventions:
* Python floats are embedded as `ℚ` (times, distances, durations are exact
  rational arithmetic here; every operation used by the source — `+`, `*`,
  `/`, `max`, `min`, comparisons — is exact on the values appearing in the
  claims).
* Python ints are `ℤ` where the source can go negative (`busy_count`) and
  `ℕ` for indices and counters that the source never decrements below zero.
* The module-global random number generator is embedded as an explicit draw
  stream: a function `draws : ℕ → ℚ` in the configuration plus a cursor
  `randIdx` in the engine state; each call of `random.uniform`,
  `random.random` or `random.gammavariate` consumes one draw.  Theorems
  quantify over all draw streams.
* `heapq` (Python standard library, not part of this repository) is
  embedded through its documented contract: the queue is the multiset of
  pushed `(time, counter, event)` triples and `popMin` removes the
  lexicographically least triple.  Counters are unique, so the stored
  event is never compared, exactly as in the source.
* `networkx.shortest_path` (external library) is embedded as an abstract
  path oracle `sp` in the configuration; `nx.connected_components` is
  re-implemented executably below for the graph-builder claims.
* A `KeyError` on a missing dictionary key aborts the Python process; the
  embedded handlers return the state unchanged at such a point.  All
  claims proved here are insensitive to this difference: the aborting run
  performs no further transitions, and the embedded one performs none that
  touch the claimed quantities.
-/

namespace SupplyChain

/-- Association-list lookup, first binding wins: `dict[k]` access order of a
Python dict (keys are unique in all states the engine builds). -/
def findVal {κ α : Type} [DecidableEq κ] : List (κ × α) → κ → Option α
  | [], _ => none
  | (k, v) :: rest, key => if k = key then some v else findVal rest key

/-- Association-list update with Python-dict semantics: overwrite in place
when the key is present, append when it is new (dicts preserve insertion
order). -/
def setKey {κ α : Type} [DecidableEq κ] : List (κ × α) → κ → α → List (κ × α)
  | [], key, v => [(key, v)]
  | (k, w) :: rest, key, v =>
    if k = key then (k, v) :: rest else (k, w) :: setKey rest key v

theorem findVal_setKey_self {κ α : Type} [DecidableEq κ]
    (l : List (κ × α)) (k : κ) (v : α) : findVal (setKey l k v) k = some v := by
  induction l with
  | nil => simp [setKey, findVal]
  | cons hd tl ih =>
    obtain ⟨k', w⟩ := hd
    by_cases h : k' = k
    · subst h
      simp [setKey, findVal]
    · simp [setKey, h, findVal, ih]

theorem findVal_setKey_other {κ α : Type} [DecidableEq κ]
    (l : List (κ × α)) (k k' : κ) (v : α) (h : k' ≠ k) :
    findVal (setKey l k v) k' = findVal l k' := by
  induction l with
  | nil => simp [setKey, findVal, Ne.symm h]
  | cons hd tl ih =>
    obtain ⟨k0, w⟩ := hd
    by_cases h0 : k0 = k
    · subst h0
      simp [setKey, findVal, Ne.symm h]
    · simp only [setKey, if_neg h0, findVal]
      by_cases h1 : k0 = k'
      · simp [h1]
      · simp [h1, ih]

/-- Event kinds of `schema.EventType`. -/
inductive EventType : Type
  | ARRIVAL_NODE
  | START_SERVICE
  | END_SERVICE
  | DEPART_NODE
  | TRUCK_SPAWN
  | START_REST
  | END_REST
  | ORDER_CREATED
  | ORDER_ASSIGNED
  deriving DecidableEq, Repr

/-- Truck states of `schema.TruckStatus`. -/
inductive TruckStatus : Type
  | IDLE
  | EN_ROUTE_TO_PICKUP
  | EN_ROUTE_TO_DELIVERY
  | RESTING
  deriving DecidableEq, Repr

/-- `schema.Order`; the status field is the literal string the engine
stores ("PENDING", "ASSIGNED", "COMPLETED", "CANCELLED"). -/
structure Order : Type where
  id : String
  origin_node_id : String
  destination_node_id : String
  creation_time : ℚ
  status : String := "PENDING"
  deriving DecidableEq, Repr

/-- `schema.NodeType`. -/
inductive NodeType : Type
  | warehouse
  | hub
  | inspection
  | customer
  | port
  deriving DecidableEq, Repr

/-- `schema.Node`: static data (id, type, position, capacity) plus the
mutable service state (`queue`, `busy_count`) the engine updates. -/
structure Node : Type where
  id : String
  type : NodeType
  lat : ℚ
  lon : ℚ
  capacity : ℤ := 1
  is_inspection : Bool := false
  queue : List String := []
  busy_count : ℤ := 0
  deriving DecidableEq, Repr

/-- `schema.Edge`.  Field order matters and mirrors the dataclass
declaration exactly: `(source, target, base_travel_time, distance_km)`,
because `graph.py` constructs some edges with positional arguments. -/
structure Edge : Type where
  source : String
  target : String
  base_travel_time : ℚ
  distance_km : ℚ
  mode_allowed : String := "truck"
  deriving DecidableEq, Repr

/-- `schema.Truck`. -/
structure Truck : Type where
  id : String
  current_node_id : String
  route : List String := []
  current_node_index : ℕ := 0
  cargo_type : String := "general"
  driving_time_since_rest : ℚ := 0
  is_resting : Bool := false
  status : TruckStatus := TruckStatus.IDLE
  previous_status : Option TruckStatus := none
  assigned_order_id : Option String := none
  current_leg_start_time : ℚ := 0
  current_leg_duration : ℚ := 0
  deriving DecidableEq, Repr

/-- A value of the free-form `details` dict of an event: the source stores
strings (ids, reasons) and floats (durations). -/
inductive DetailVal : Type
  | str (v : String)
  | num (v : ℚ)
  deriving DecidableEq, Repr

/-- `schema.Event`. -/
structure Event : Type where
  time : ℚ
  truck_id : String
  node_id : String
  event_type : EventType
  event_id : ℕ := 0
  details : List (String × DetailVal) := []
  deriving DecidableEq, Repr

/-- One entry of the engine's heap: the `(event.time, event_counter, event)`
triple pushed by `SimulationEngine.schedule_event`. -/
structure QEntry : Type where
  time : ℚ
  cnt : ℕ
  event : Event
  deriving DecidableEq, Repr

/-- `heapq.heappop` on the tuple heap: remove the lexicographically least
`(time, counter)` entry (counters are unique, so the third component is
never compared, exactly as in CPython's tuple comparison). -/
def popMin : List QEntry → Option (QEntry × List QEntry)
  | [] => none
  | x :: xs =>
    match popMin xs with
    | none => some (x, [])
    | some (m, rest) =>
      if x.time < m.time ∨ (x.time = m.time ∧ x.cnt ≤ m.cnt) then some (x, xs)
      else some (m, x :: rest)

theorem popMin_nil : popMin [] = none := rfl

theorem popMin_ne_none {l : List QEntry} (h : l ≠ []) : popMin l ≠ none := by
  cases l with
  | nil => exact absurd rfl h
  | cons x xs =>
    simp only [popMin]
    cases hxs : popMin xs with
    | none => simp
    | some p =>
      obtain ⟨m, rest⟩ := p
      by_cases hc : x.time < m.time ∨ (x.time = m.time ∧ x.cnt ≤ m.cnt) <;> simp [hc]

theorem popMin_perm {l : List QEntry} {m : QEntry} {rest : List QEntry}
    (h : popMin l = some (m, rest)) : l.Perm (m :: rest) := by
  induction l generalizing m rest with
  | nil => simp [popMin] at h
  | cons x xs ih =>
    simp only [popMin] at h
    cases hxs : popMin xs with
    | none =>
      rw [hxs] at h
      dsimp only at h
      cases xs with
      | nil =>
        injection h with h
        injection h with h1 h2
        subst h1
        subst h2
        exact List.Perm.refl _
      | cons y ys => exact absurd hxs (popMin_ne_none (by simp))
    | some p =>
      obtain ⟨m', rest'⟩ := p
      rw [hxs] at h
      dsimp only at h
      by_cases hc : x.time < m'.time ∨ (x.time = m'.time ∧ x.cnt ≤ m'.cnt)
      · rw [if_pos hc] at h
        injection h with h
        injection h with h1 h2
        subst h1
        subst h2
        exact List.Perm.refl _
      · rw [if_neg hc] at h
        injection h with h
        injection h with h1 h2
        subst h1
        subst h2
        exact ((ih hxs).cons x).trans (List.Perm.swap m' x rest')

theorem popMin_mem {l : List QEntry} {m : QEntry} {rest : List QEntry}
    (h : popMin l = some (m, rest)) : m ∈ l :=
  (popMin_perm h).symm.subset (List.mem_cons_self m rest)

theorem popMin_min {l : List QEntry} {m : QEntry} {rest : List QEntry}
    (h : popMin l = some (m, rest)) :
    ∀ x ∈ l, m.time < x.time ∨ (m.time = x.time ∧ m.cnt ≤ x.cnt) := by
  induction l generalizing m rest with
  | nil => simp [popMin] at h
  | cons y ys ih =>
    simp only [popMin] at h
    cases hys : popMin ys with
    | none =>
      rw [hys] at h
      dsimp only at h
      cases ys with
      | nil =>
        injection h with h
        injection h with h1 h2
        subst h1
        intro x hx
        simp at hx
        subst hx
        right
        exact ⟨rfl, le_refl _⟩
      | cons z zs => exact absurd hys (popMin_ne_none (by simp))
    | some p =>
      obtain ⟨m', rest'⟩ := p
      rw [hys] at h
      dsimp only at h
      by_cases hc : y.time < m'.time ∨ (y.time = m'.time ∧ y.cnt ≤ m'.cnt)
      · rw [if_pos hc] at h
        injection h with h
        injection h with h1 h2
        subst h1
        intro x hx
        rcases List.mem_cons.mp hx with hx | hx
        · subst hx
          right
          exact ⟨rfl, le_refl _⟩
        · have hmin := ih hys x hx
          rcases hc with hc | hc
          · rcases hmin with hm | hm
            · exact Or.inl (lt_trans hc hm)
            · exact Or.inl (hm.1 ▸ hc)
          · rcases hmin with hm | hm
            · exact Or.inl (hc.1 ▸ hm)
            · exact Or.inr ⟨hc.1.trans hm.1, hc.2.trans hm.2⟩
      · rw [if_neg hc] at h
        injection h with h
        injection h with h1 h2
        subst h1
        intro x hx
        rcases List.mem_cons.mp hx with hx | hx
        · subst hx
          push_neg at hc
          rcases lt_trichotomy m'.time x.time with ht | ht | ht
          · exact Or.inl ht
          · exact Or.inr ⟨ht, le_of_lt (hc.2 ht.symm)⟩
          · exact absurd ht (not_lt.mpr hc.1)
        · exact ih hys x hx

/-- Static data of a simulation run: the built graph's edge lookup
(`GraphBuilder.get_edge`), the shortest-path oracle
(`GraphBuilder.get_shortest_path`, backed by `networkx` in the source) and
the random draw stream (the module-global `random` generator). -/
structure Config : Type where
  getEdge : String → String → Option Edge
  sp : String → String → List String
  draws : ℕ → ℚ

/-- Mutable state of `SimulationEngine` plus the mutable part of its
`GraphBuilder` (the nodes map, whose `busy_count`/`queue` the handlers
update) and the random-stream cursor. -/
structure EngineState : Type where
  event_queue : List QEntry
  current_time : ℚ
  event_counter : ℕ
  processed_events : List Event
  trucks : List (String × Truck)
  orders : List (String × Order)
  pending_orders : List String
  nodes : List (String × Node)
  randIdx : ℕ
  deriving DecidableEq

/-- Consume one value from the random stream. -/
def drawRand (cfg : Config) (s : EngineState) : ℚ × EngineState :=
  (cfg.draws s.randIdx, { s with randIdx := s.randIdx + 1 })

/-- `DelayModel.get_travel_time`: `noise = uniform(0,1)`; with probability
0.05 (`random() < 0.05`) add `uniform(0.5, 2.0)`; return
`max(1.0, base * (1 + noise))`. -/
def getTravelTime (cfg : Config) (base : ℚ) (s : EngineState) : ℚ × EngineState :=
  let (noise, s1) := drawRand cfg s
  let (u, s2) := drawRand cfg s1
  if u < 1 / 20 then
    let (extra, s3) := drawRand cfg s2
    (max 1 (base * (1 + (noise + extra))), s3)
  else
    (max 1 (base * (1 + noise)), s2)

/-- `DelayModel.get_service_time`: the kind-specific base is computed but
unused (`node.type` is compared with the strings "hub"/"inspection", which
matches the str-enum); the returned value is `gammavariate(4, 35)` clamped
into `[60, 300]`. -/
def getServiceTime (cfg : Config) (node : Node) (s : EngineState) : ℚ × EngineState :=
  let _base : ℚ :=
    if node.type = NodeType.hub then 15
    else if node.type = NodeType.inspection then 20
    else 10
  let (actual, s1) := drawRand cfg s
  (max 60 (min actual 300), s1)

/-- `SimulationEngine.schedule_event`: push `(event.time, event_counter,
event)` and increment the counter.  The heap is modelled as the multiset of
its entries, so the push is an append. -/
def scheduleEvent (s : EngineState) (e : Event) : EngineState :=
  { s with
    event_queue := s.event_queue ++ [⟨e.time, s.event_counter, e⟩]
    event_counter := s.event_counter + 1 }

/-- Route planning inside `SimulationEngine.assign_order_to_truck`
(lines 115-138): path to pickup (empty when the truck is already at the
origin; the source computes it twice, but the call is pure), path to
delivery, then concatenation dropping a duplicated join node. -/
def planRoute (cfg : Config) (truck : Truck) (order : Order) : List String :=
  let path_to_pickup : List String :=
    if truck.current_node_id ≠ order.origin_node_id then
      cfg.sp truck.current_node_id order.origin_node_id
    else []
  let path_to_delivery : List String :=
    cfg.sp order.origin_node_id order.destination_node_id
  if path_to_pickup ≠ [] then
    if path_to_delivery ≠ [] then
      if path_to_pickup.getLast? = path_to_delivery.head? then
        path_to_pickup ++ path_to_delivery.tail
      else
        path_to_pickup ++ path_to_delivery
    else
      path_to_pickup
  else
    path_to_delivery

/-- `SimulationEngine.assign_order_to_truck`. -/
def assignOrderToTruck (cfg : Config) (s : EngineState) (order : Order) (truck : Truck) :
    EngineState :=
  let full_route := planRoute cfg truck order
  if full_route = [] ∨ full_route.length < 2 then
    { s with orders := setKey s.orders order.id { order with status := "CANCELLED" } }
  else
    let truck1 := { truck with
      status := TruckStatus.EN_ROUTE_TO_PICKUP
      assigned_order_id := some order.id }
    let order1 := { order with status := "ASSIGNED" }
    let s1 := { s with
      trucks := setKey s.trucks truck.id truck1
      orders := setKey s.orders order.id order1 }
    let s2 := scheduleEvent s1
      { time := s1.current_time
        truck_id := truck.id
        node_id := truck.current_node_id
        event_type := EventType.ORDER_ASSIGNED
        details := [("order_id", DetailVal.str order.id),
                    ("origin", DetailVal.str order.origin_node_id),
                    ("destination", DetailVal.str order.destination_node_id),
                    ("reason", DetailVal.str "Nearest Idle Truck")] }
    let truck2 := { truck1 with route := full_route, current_node_index := 0 }
    let s3 := { s2 with trucks := setKey s2.trucks truck.id truck2 }
    if truck2.route.length > 1 then
      scheduleEvent s3
        { time := s3.current_time
          truck_id := truck.id
          node_id := truck.current_node_id
          event_type := EventType.DEPART_NODE }
    else
      s3

/-- `SimulationEngine.dispatcher_logic`: FIFO head of `pending_orders`,
first idle truck in dict iteration order (the "nearest" loop breaks on its
first iteration), then assignment and `pending_orders.pop(0)`. -/
def dispatcherLogic (cfg : Config) (s : EngineState) : EngineState :=
  match s.pending_orders with
  | [] => s
  | order_id :: restPending =>
    let idle_trucks := (s.trucks.map Prod.snd).filter
      (fun t => decide (t.status = TruckStatus.IDLE))
    if idle_trucks = [] then s
    else
      match findVal s.orders order_id with
      | none => s
      | some order =>
        match idle_trucks.head? with
        | none => s
        | some best_truck =>
          let s1 := assignOrderToTruck cfg s order best_truck
          { s1 with pending_orders := restPending }

/-- `SimulationEngine.handle_truck_spawn`. -/
def handleTruckSpawn (cfg : Config) (s : EngineState) (e : Event) : EngineState :=
  let truck : Truck :=
    { id := e.truck_id, current_node_id := e.node_id, status := TruckStatus.IDLE }
  let s1 := { s with trucks := setKey s.trucks e.truck_id truck }
  dispatcherLogic cfg s1

/-- `SimulationEngine.handle_order_created`: reads order_id, origin and
destination out of the details dict, stores the order, appends it to
`pending_orders` and invokes the dispatcher. -/
def handleOrderCreated (cfg : Config) (s : EngineState) (e : Event) : EngineState :=
  match findVal e.details "order_id", findVal e.details "origin",
        findVal e.details "destination" with
  | some (DetailVal.str oid), some (DetailVal.str origin), some (DetailVal.str dest) =>
    let order : Order :=
      { id := oid
        origin_node_id := origin
        destination_node_id := dest
        creation_time := s.current_time }
    let s1 := { s with
      orders := setKey s.orders oid order
      pending_orders := s.pending_orders ++ [oid] }
    dispatcherLogic cfg s1
  | _, _, _ => s

/-- `SimulationEngine.handle_arrival`: update the truck's position, reset
leg interpolation, then either schedule `start_service` now (when
`busy_count < capacity`) or append the truck to the node's queue.  The
source also looks up the truck's assigned order into a local variable that
is never read (lines 188-190); that dead read is omitted here. -/
def handleArrival ( _cfg : Config) (s : EngineState) (e : Event) : EngineState :=
  match findVal s.nodes e.node_id with
  | none => s
  | some node =>
    match findVal s.trucks e.truck_id with
    | none => s
    | some truck =>
      let truck1 := { truck with
        current_node_id := node.id
        current_leg_duration := 0
        current_leg_start_time := 0 }
      let s1 := { s with trucks := setKey s.trucks e.truck_id truck1 }
      if node.busy_count < node.capacity then
        scheduleEvent s1
          { time := s1.current_time
            truck_id := e.truck_id
            node_id := node.id
            event_type := EventType.START_SERVICE }
      else
        { s1 with nodes :=
            setKey s1.nodes e.node_id { node with queue := node.queue ++ [e.truck_id] } }

/-- `SimulationEngine.handle_start_service`: increment `busy_count`, draw a
service time and schedule `end_service`. -/
def handleStartService (cfg : Config) (s : EngineState) (e : Event) : EngineState :=
  match findVal s.nodes e.node_id with
  | none => s
  | some node =>
    let node1 := { node with busy_count := node.busy_count + 1 }
    let s1 := { s with nodes := setKey s.nodes e.node_id node1 }
    let (service_time, s2) := getServiceTime cfg node1 s1
    scheduleEvent s2
      { time := s2.current_time + service_time
        truck_id := e.truck_id
        node_id := node.id
        event_type := EventType.END_SERVICE
        details := [("service_duration", DetailVal.num service_time)] }

/-- Head-of-queue promotion in `handle_end_service` (`if node.queue:` pop
the head and schedule `start_service` for it now); `key` is the dict key of
the node (the event's node_id). -/
def promoteQueueHead (s : EngineState) (key : String) (node : Node) : EngineState :=
  match node.queue with
  | [] => s
  | next_truck :: restQ =>
    let s1 := { s with nodes := setKey s.nodes key { node with queue := restQ } }
    scheduleEvent s1
      { time := s1.current_time
        truck_id := next_truck
        node_id := node.id
        event_type := EventType.START_SERVICE }

/-- Tail of `handle_end_service` after the order bookkeeping: schedule
`depart_node` when further hops remain, then promote the queue head. -/
def endServiceTail (s : EngineState) (e : Event) (truck : Truck) (node : Node) :
    EngineState :=
  let s1 :=
    if truck.route ≠ [] ∧ truck.current_node_index < truck.route.length - 1 then
      scheduleEvent s
        { time := s.current_time
          truck_id := e.truck_id
          node_id := node.id
          event_type := EventType.DEPART_NODE }
    else s
  promoteQueueHead s1 e.node_id node

/-- `SimulationEngine.handle_end_service`. -/
def handleEndService ( _cfg : Config) (s : EngineState) (e : Event) : EngineState :=
  match findVal s.nodes e.node_id with
  | none => s
  | some node =>
    let node1 := { node with busy_count := node.busy_count - 1 }
    let s1 := { s with nodes := setKey s.nodes e.node_id node1 }
    match findVal s1.trucks e.truck_id with
    | none => s1
    | some truck =>
      match truck.assigned_order_id with
      | some oid =>
        (match findVal s1.orders oid with
         | none => s1
         | some order =>
           if truck.status = TruckStatus.EN_ROUTE_TO_PICKUP ∧
              node1.id = order.origin_node_id then
             let truck1 := { truck with status := TruckStatus.EN_ROUTE_TO_DELIVERY }
             let s2 := { s1 with trucks := setKey s1.trucks e.truck_id truck1 }
             endServiceTail s2 e truck1 node1
           else if truck.status = TruckStatus.EN_ROUTE_TO_DELIVERY ∧
              node1.id = order.destination_node_id then
             let truck1 := { truck with
               status := TruckStatus.IDLE
               assigned_order_id := none
               route := [] }
             let s2 := { s1 with
               trucks := setKey s1.trucks e.truck_id truck1
               orders := setKey s1.orders oid { order with status := "COMPLETED" } }
             promoteQueueHead s2 e.node_id node1
           else
             endServiceTail s1 e truck node1)
      | none => endServiceTail s1 e truck node1

/-- `SimulationEngine.handle_depart`: guard on a non-empty route with hops
left, edge lookup, travel-time draw, then either force `start_rest` (when
`driving_time_since_rest > 0` and the leg would push it past 480) or
advance the truck and schedule the arrival.  Note that the draw happens
before the rest check, exactly as in the source. -/
def handleDepart (cfg : Config) (s : EngineState) (e : Event) : EngineState :=
  match findVal s.trucks e.truck_id with
  | none => s
  | some truck =>
    if truck.route = [] then s
    else if truck.current_node_index < truck.route.length - 1 then
      match truck.route.get? (truck.current_node_index + 1) with
      | none => s
      | some next_node_id =>
        match cfg.getEdge e.node_id next_node_id with
        | none => s
        | some edge =>
          let (travel_time, s1) := getTravelTime cfg edge.base_travel_time s
          if truck.driving_time_since_rest > 0 ∧
             truck.driving_time_since_rest + travel_time > 480 then
            scheduleEvent s1
              { time := s1.current_time
                truck_id := truck.id
                node_id := e.node_id
                event_type := EventType.START_REST }
          else
            let truck1 := { truck with
              current_node_index := truck.current_node_index + 1
              driving_time_since_rest := truck.driving_time_since_rest + travel_time
              current_leg_start_time := s1.current_time
              current_leg_duration := travel_time }
            let s2 := { s1 with trucks := setKey s1.trucks e.truck_id truck1 }
            scheduleEvent s2
              { time := s2.current_time + travel_time
                truck_id := truck.id
                node_id := next_node_id
                event_type := EventType.ARRIVAL_NODE
                details := [("travel_duration", DetailVal.num travel_time)] }
    else s

/-- `SimulationEngine.handle_start_rest`: save the previous status, mark
resting and schedule `end_rest` after the fixed 60-minute rest. -/
def handleStartRest ( _cfg : Config) (s : EngineState) (e : Event) : EngineState :=
  match findVal s.trucks e.truck_id with
  | none => s
  | some truck =>
    let truck1 := { truck with
      previous_status := some truck.status
      is_resting := true
      status := TruckStatus.RESTING }
    let s1 := { s with trucks := setKey s.trucks e.truck_id truck1 }
    scheduleEvent s1
      { time := s1.current_time + 60
        truck_id := truck.id
        node_id := e.node_id
        event_type := EventType.END_REST
        details := [("rest_duration", DetailVal.num 60)] }

/-- `SimulationEngine.handle_end_rest`: reset `driving_time_since_rest`,
restore the saved status (en-route states pass through, anything else with
an assigned order becomes en-route-to-delivery, otherwise idle) and
schedule an immediate `depart_node`. -/
def handleEndRest ( _cfg : Config) (s : EngineState) (e : Event) : EngineState :=
  match findVal s.trucks e.truck_id with
  | none => s
  | some truck =>
    let status1 : TruckStatus :=
      if truck.assigned_order_id.isSome ∧ truck.previous_status.isSome then
        match truck.previous_status with
        | some ps =>
          if ps = TruckStatus.EN_ROUTE_TO_PICKUP ∨ ps = TruckStatus.EN_ROUTE_TO_DELIVERY
          then ps
          else TruckStatus.EN_ROUTE_TO_DELIVERY
        | none => TruckStatus.IDLE
      else TruckStatus.IDLE
    let truck1 := { truck with
      is_resting := false
      driving_time_since_rest := 0
      status := status1
      previous_status := none }
    let s1 := { s with trucks := setKey s.trucks e.truck_id truck1 }
    scheduleEvent s1
      { time := s1.current_time
        truck_id := truck.id
        node_id := e.node_id
        event_type := EventType.DEPART_NODE }

/-- `SimulationEngine.process_event`: dispatch on the event kind;
`ORDER_ASSIGNED` has no branch and is a no-op. -/
def processEvent (cfg : Config) (s : EngineState) (e : Event) : EngineState :=
  match e.event_type with
  | EventType.TRUCK_SPAWN => handleTruckSpawn cfg s e
  | EventType.ORDER_CREATED => handleOrderCreated cfg s e
  | EventType.ARRIVAL_NODE => handleArrival cfg s e
  | EventType.START_SERVICE => handleStartService cfg s e
  | EventType.END_SERVICE => handleEndService cfg s e
  | EventType.DEPART_NODE => handleDepart cfg s e
  | EventType.START_REST => handleStartRest cfg s e
  | EventType.END_REST => handleEndRest cfg s e
  | EventType.ORDER_ASSIGNED => s

/-- `SimulationEngine.step`: pop the least entry, advance `current_time` to
its time, append the event to the processed log and dispatch; no-op on an
empty queue. -/
def stepFn (cfg : Config) (s : EngineState) : EngineState :=
  match popMin s.event_queue with
  | none => s
  | some (entry, rest) =>
    let s1 := { s with
      event_queue := rest
      current_time := entry.time
      processed_events := s.processed_events ++ [entry.event] }
    processEvent cfg s1 entry.event

/-- `SimulationEngine.run`: while the queue is non-empty and
`current_time < duration`, step.  The source's while loop is given an
explicit fuel; every claim about `run` is proved for every fuel value.
The optional `step_callback` of the source is `None` here. -/
def runFuel (cfg : Config) : ℕ → ℚ → EngineState → EngineState
  | 0, _, s => s
  | n + 1, duration, s =>
    if s.event_queue ≠ [] ∧ s.current_time < duration then
      runFuel cfg n duration (stepFn cfg s)
    else s

/-- `SimulationEngine.__init__` with the built graph's nodes. -/
def initState (nodes0 : List (String × Node)) : EngineState :=
  { event_queue := []
    current_time := 0
    event_counter := 0
    processed_events := []
    trucks := []
    orders := []
    pending_orders := []
    nodes := nodes0
    randIdx := 0 }

/-- Seeding: push a list of external events through `schedule_event`. -/
def pushAll (s : EngineState) (events : List Event) : EngineState :=
  events.foldl scheduleEvent s

/-- States of the engine reachable by seeding a fresh engine with `seeds`
and then stepping any number of times. -/
inductive Reachable (cfg : Config) (nodes0 : List (String × Node)) (seeds : List Event) :
    EngineState → Prop
  | init : Reachable cfg nodes0 seeds (pushAll (initState nodes0) seeds)
  | step (s : EngineState) : Reachable cfg nodes0 seeds s →
      Reachable cfg nodes0 seeds (stepFn cfg s)

/-- Frame property of an event handler relative to the state it started
from: the handler never changes `current_time` or the processed log, and
every queue entry it leaves behind was either already queued or is
scheduled no earlier than the current time. -/
def HandlerFrame (s s' : EngineState) : Prop :=
  s'.current_time = s.current_time ∧
  s'.processed_events = s.processed_events ∧
  ∀ q ∈ s'.event_queue, q ∈ s.event_queue ∨ s.current_time ≤ q.time

theorem HandlerFrame.rfl (s : EngineState) : HandlerFrame s s :=
  ⟨Eq.refl _, Eq.refl _, fun _ hq => Or.inl hq⟩

theorem HandlerFrame.trans {s s1 s2 : EngineState}
    (h1 : HandlerFrame s s1) (h2 : HandlerFrame s1 s2) : HandlerFrame s s2 := by
  refine ⟨h2.1.trans h1.1, h2.2.1.trans h1.2.1, fun q hq => ?_⟩
  rcases h2.2.2 q hq with hm | ht
  · exact h1.2.2 q hm
  · exact Or.inr (h1.1 ▸ ht)

/-- Frame of a `{ s with ... }` update that leaves the queue, the clock and
the log untouched. -/
theorem HandlerFrame.of_same {s s' : EngineState}
    (ht : s'.current_time = s.current_time)
    (hp : s'.processed_events = s.processed_events)
    (hq : s'.event_queue = s.event_queue) : HandlerFrame s s' :=
  ⟨ht, hp, fun _ hmem => Or.inl (hq ▸ hmem)⟩

theorem HandlerFrame.schedule_after {s s' : EngineState} {ev : Event}
    (h : HandlerFrame s s') (hev : s.current_time ≤ ev.time) :
    HandlerFrame s (scheduleEvent s' ev) := by
  refine ⟨h.1, h.2.1, fun q hq => ?_⟩
  simp only [scheduleEvent, List.mem_append, List.mem_singleton] at hq
  rcases hq with hq | hq
  · exact h.2.2 q hq
  · subst hq
    exact Or.inr hev

theorem getTravelTime_snd (cfg : Config) (b : ℚ) (s : EngineState) :
    (getTravelTime cfg b s).2 =
      { s with randIdx := (getTravelTime cfg b s).2.randIdx } := by
  unfold getTravelTime drawRand
  dsimp only
  split <;> rfl

theorem getTravelTime_ge_one (cfg : Config) (b : ℚ) (s : EngineState) :
    1 ≤ (getTravelTime cfg b s).1 := by
  unfold getTravelTime drawRand
  dsimp only
  split <;> exact le_max_left _ _

theorem getServiceTime_snd (cfg : Config) (node : Node) (s : EngineState) :
    (getServiceTime cfg node s).2 = { s with randIdx := s.randIdx + 1 } := rfl

theorem getServiceTime_ge (cfg : Config) (node : Node) (s : EngineState) :
    60 ≤ (getServiceTime cfg node s).1 :=
  le_max_left _ _

theorem mem_append_singleton {q e : QEntry} {l : List QEntry}
    (h : q ∈ l ++ [e]) : q ∈ l ∨ q = e := by
  simpa using h

theorem promoteQueueHead_frame (s : EngineState) (key : String) (node : Node) :
    HandlerFrame s (promoteQueueHead s key node) := by
  unfold promoteQueueHead
  dsimp only
  split
  · exact HandlerFrame.rfl s
  · refine ⟨rfl, rfl, fun q hq => ?_⟩
    rcases mem_append_singleton hq with hq | hq
    · exact Or.inl hq
    · subst hq
      exact Or.inr (le_refl _)

theorem endServiceTail_frame (s : EngineState) (e : Event) (truck : Truck) (node : Node) :
    HandlerFrame s (endServiceTail s e truck node) := by
  unfold endServiceTail
  dsimp only
  split
  · exact ((HandlerFrame.rfl s).schedule_after (le_refl _)).trans
      (promoteQueueHead_frame _ _ _)
  · exact promoteQueueHead_frame _ _ _

theorem assignOrderToTruck_frame (cfg : Config) (s : EngineState)
    (order : Order) (truck : Truck) :
    HandlerFrame s (assignOrderToTruck cfg s order truck) := by
  unfold assignOrderToTruck
  dsimp only
  split
  · exact ⟨rfl, rfl, fun q hq => Or.inl hq⟩
  · split
    · refine ⟨rfl, rfl, fun q hq => ?_⟩
      rcases mem_append_singleton hq with hq | hq
      · rcases mem_append_singleton hq with hq | hq
        · exact Or.inl hq
        · subst hq
          exact Or.inr (le_refl _)
      · subst hq
        exact Or.inr (le_refl _)
    · refine ⟨rfl, rfl, fun q hq => ?_⟩
      rcases mem_append_singleton hq with hq | hq
      · exact Or.inl hq
      · subst hq
        exact Or.inr (le_refl _)

theorem dispatcherLogic_frame (cfg : Config) (s : EngineState) :
    HandlerFrame s (dispatcherLogic cfg s) := by
  unfold dispatcherLogic
  dsimp only
  repeat' split
  all_goals
    first
      | exact HandlerFrame.rfl s
      | exact (assignOrderToTruck_frame cfg s _ _).trans
          ⟨rfl, rfl, fun q hq => Or.inl hq⟩

theorem handleTruckSpawn_frame (cfg : Config) (s : EngineState) (e : Event) :
    HandlerFrame s (handleTruckSpawn cfg s e) := by
  unfold handleTruckSpawn
  dsimp only
  exact HandlerFrame.trans ⟨rfl, rfl, fun q hq => Or.inl hq⟩ (dispatcherLogic_frame cfg _)

theorem handleOrderCreated_frame (cfg : Config) (s : EngineState) (e : Event) :
    HandlerFrame s (handleOrderCreated cfg s e) := by
  unfold handleOrderCreated
  dsimp only
  split
  · exact HandlerFrame.trans ⟨rfl, rfl, fun q hq => Or.inl hq⟩ (dispatcherLogic_frame cfg _)
  · exact HandlerFrame.rfl s

theorem handleArrival_frame (cfg : Config) (s : EngineState) (e : Event) :
    HandlerFrame s (handleArrival cfg s e) := by
  unfold handleArrival
  dsimp only
  split
  · exact HandlerFrame.rfl s
  · split
    · exact HandlerFrame.rfl s
    · split
      · refine ⟨rfl, rfl, fun q hq => ?_⟩
        rcases mem_append_singleton hq with hq | hq
        · exact Or.inl hq
        · subst hq
          exact Or.inr (le_refl _)
      · exact ⟨rfl, rfl, fun q hq => Or.inl hq⟩

theorem handleStartService_frame (cfg : Config) (s : EngineState) (e : Event) :
    HandlerFrame s (handleStartService cfg s e) := by
  unfold handleStartService
  dsimp only
  split
  · exact HandlerFrame.rfl s
  · refine ⟨rfl, rfl, fun q hq => ?_⟩
    rcases mem_append_singleton hq with hq | hq
    · exact Or.inl hq
    · subst hq
      exact Or.inr (le_add_of_nonneg_right
        (le_trans (by norm_num : (0 : ℚ) ≤ 60) (getServiceTime_ge cfg _ _)))

theorem handleEndService_frame (cfg : Config) (s : EngineState) (e : Event) :
    HandlerFrame s (handleEndService cfg s e) := by
  unfold handleEndService
  dsimp only
  repeat' split
  all_goals
    first
      | exact HandlerFrame.rfl s
      | exact ⟨rfl, rfl, fun q hq => Or.inl hq⟩
      | exact HandlerFrame.trans ⟨rfl, rfl, fun q hq => Or.inl hq⟩
          (endServiceTail_frame _ _ _ _)
      | exact HandlerFrame.trans ⟨rfl, rfl, fun q hq => Or.inl hq⟩
          (promoteQueueHead_frame _ _ _)

theorem handleDepart_frame (cfg : Config) (s : EngineState) (e : Event) :
    HandlerFrame s (handleDepart cfg s e) := by
  unfold handleDepart
  dsimp only
  split
  · exact HandlerFrame.rfl s
  · split
    · exact HandlerFrame.rfl s
    · split
      · split
        · exact HandlerFrame.rfl s
        · split
          · exact HandlerFrame.rfl s
          · rename_i edge heq
            generalize hdraw : getTravelTime cfg edge.base_travel_time s = p
            obtain ⟨tv, s1⟩ := p
            have hs1 : s1 = (getTravelTime cfg edge.base_travel_time s).2 :=
              (congrArg Prod.snd hdraw).symm
            rw [getTravelTime_snd] at hs1
            have htv : 1 ≤ tv := by
              have h1 : (getTravelTime cfg edge.base_travel_time s).1 = tv := by
                rw [hdraw]
              rw [← h1]
              exact getTravelTime_ge_one cfg _ _
            have h0 : (0 : ℚ) ≤ tv := le_trans (by norm_num) htv
            subst hs1
            split
            · refine ⟨rfl, rfl, fun q hq => ?_⟩
              rcases mem_append_singleton hq with hq | hq
              · exact Or.inl hq
              · subst hq
                exact Or.inr (le_refl _)
            · refine ⟨rfl, rfl, fun q hq => ?_⟩
              rcases mem_append_singleton hq with hq | hq
              · exact Or.inl hq
              · subst hq
                exact Or.inr (le_add_of_nonneg_right h0)
      · exact HandlerFrame.rfl s

theorem handleStartRest_frame (cfg : Config) (s : EngineState) (e : Event) :
    HandlerFrame s (handleStartRest cfg s e) := by
  unfold handleStartRest
  dsimp only
  split
  · exact HandlerFrame.rfl s
  · refine ⟨rfl, rfl, fun q hq => ?_⟩
    rcases mem_append_singleton hq with hq | hq
    · exact Or.inl hq
    · subst hq
      exact Or.inr (le_add_of_nonneg_right (by norm_num))

theorem handleEndRest_frame (cfg : Config) (s : EngineState) (e : Event) :
    HandlerFrame s (handleEndRest cfg s e) := by
  unfold handleEndRest
  dsimp only
  split
  · exact HandlerFrame.rfl s
  · refine ⟨rfl, rfl, fun q hq => ?_⟩
    rcases mem_append_singleton hq with hq | hq
    · exact Or.inl hq
    · subst hq
      exact Or.inr (le_refl _)

theorem processEvent_frame (cfg : Config) (s : EngineState) (e : Event) :
    HandlerFrame s (processEvent cfg s e) := by
  unfold processEvent
  cases e.event_type
  · exact handleArrival_frame cfg s e
  · exact handleStartService_frame cfg s e
  · exact handleEndService_frame cfg s e
  · exact handleDepart_frame cfg s e
  · exact handleTruckSpawn_frame cfg s e
  · exact handleStartRest_frame cfg s e
  · exact handleEndRest_frame cfg s e
  · exact handleOrderCreated_frame cfg s e
  · exact HandlerFrame.rfl s

/-- Queue-time invariant: no queued event lies in the engine's past. -/
def QueueInv (s : EngineState) : Prop :=
  ∀ q ∈ s.event_queue, s.current_time ≤ q.time

theorem stepFn_time_mono (cfg : Config) (s : EngineState) (h : QueueInv s) :
    s.current_time ≤ (stepFn cfg s).current_time ∧ QueueInv (stepFn cfg s) := by
  unfold stepFn
  cases hp : popMin s.event_queue with
  | none => exact ⟨le_refl _, h⟩
  | some p =>
    obtain ⟨entry, rest⟩ := p
    dsimp only
    have hts : s.current_time ≤ entry.time := h entry (popMin_mem hp)
    have hframe := processEvent_frame cfg
      { s with
        event_queue := rest
        current_time := entry.time
        processed_events := s.processed_events ++ [entry.event] } entry.event
    constructor
    · rw [hframe.1]
      exact hts
    · intro q hq
      rw [hframe.1]
      rcases hframe.2.2 q hq with hmemq | htq
      · have hq2 : q ∈ s.event_queue :=
          (popMin_perm hp).symm.subset (List.mem_cons_of_mem _ hmemq)
        rcases popMin_min hp q hq2 with hlt | heq
        · exact le_of_lt hlt
        · exact le_of_eq heq.1
      · exact htq

theorem pushAll_spec (events : List Event) (s : EngineState) :
    (pushAll s events).current_time = s.current_time ∧
    (pushAll s events).processed_events = s.processed_events ∧
    ∀ q ∈ (pushAll s events).event_queue,
      q ∈ s.event_queue ∨ ∃ e ∈ events, q.time = e.time := by
  induction events generalizing s with
  | nil => exact ⟨rfl, rfl, fun q hq => Or.inl hq⟩
  | cons e es ih =>
    have hstep := ih (scheduleEvent s e)
    refine ⟨hstep.1, hstep.2.1, fun q hq => ?_⟩
    rcases hstep.2.2 q hq with hmem | ⟨e1, he1, ht⟩
    · rcases mem_append_singleton hmem with hmem | hmem
      · exact Or.inl hmem
      · subst hmem
        exact Or.inr ⟨e, List.mem_cons_self e es, rfl⟩
    · exact Or.inr ⟨e1, List.mem_cons_of_mem e he1, ht⟩

theorem reachable_queueInv (cfg : Config) (nodes0 : List (String × Node))
    (seeds : List Event) (hseeds : ∀ e ∈ seeds, 0 ≤ e.time) :
    ∀ s, Reachable cfg nodes0 seeds s → QueueInv s := by
  intro s hs
  induction hs with
  | init =>
    intro q hq
    have hpush := pushAll_spec seeds (initState nodes0)
    rw [hpush.1]
    rcases hpush.2.2 q hq with hmem | ⟨e, he, ht⟩
    · simp [initState] at hmem
    · rw [ht]
      exact hseeds e he
  | step s1 _ ih => exact (stepFn_time_mono cfg s1 ih).2

theorem runFuel_stop (cfg : Config) (n : ℕ) (dur : ℚ) (s : EngineState)
    (h : ¬s.current_time < dur) : runFuel cfg n dur s = s := by
  cases n with
  | zero => rfl
  | succ n =>
    unfold runFuel
    rw [if_neg (fun hc => h hc.2)]

/-- C4: every pop from the event queue removes an entry whose time is
minimal among all queued entries and, among entries sharing that minimal
time, the one with the smallest insertion counter; `schedule_event` stamps
each pushed event with the current counter and increments it, so the
smallest counter is the earliest push and same-instant events are processed
in FIFO insertion order.  The popped entry is removed (the remaining queue
is a permutation witness) and `step` advances the clock to its time and
appends exactly that event to the processed log. -/
theorem queue_pop_min_time_fifo (l : List QEntry) (m : QEntry) (rest : List QEntry)
    (h : popMin l = some (m, rest)) :
    m ∈ l ∧ l.Perm (m :: rest) ∧
    (∀ x ∈ l, m.time < x.time ∨ (m.time = x.time ∧ m.cnt ≤ x.cnt)) ∧
    (∀ (s : EngineState) (ev : Event),
      (scheduleEvent s ev).event_queue =
        s.event_queue ++ [⟨ev.time, s.event_counter, ev⟩] ∧
      (scheduleEvent s ev).event_counter = s.event_counter + 1) ∧
    (∀ (cfg : Config) (s : EngineState), s.event_queue = l →
      (stepFn cfg s).current_time = m.time ∧
      (stepFn cfg s).processed_events = s.processed_events ++ [m.event]) := by
  refine ⟨popMin_mem h, popMin_perm h, popMin_min h,
    fun s ev => ⟨rfl, rfl⟩, fun cfg s hqueue => ?_⟩
  unfold stepFn
  rw [hqueue, h]
  dsimp only
  have hframe := processEvent_frame cfg
    { s with
      event_queue := rest
      current_time := m.time
      processed_events := s.processed_events ++ [m.event] } m.event
  exact ⟨hframe.1, hframe.2.1⟩

/-- C5: `current_time` is non-decreasing across steps, for every run whose
externally seeded events all carry a non-negative time (handlers only ever
schedule at the current time plus a non-negative delay, which the frame
lemmas establish unconditionally). -/
theorem current_time_nondecreasing (cfg : Config) (nodes0 : List (String × Node))
    (seeds : List Event) (hseeds : ∀ e ∈ seeds, 0 ≤ e.time)
    (s : EngineState) (hs : Reachable cfg nodes0 seeds s) :
    s.current_time ≤ (stepFn cfg s).current_time :=
  (stepFn_time_mono cfg s (reachable_queueInv cfg nodes0 seeds hseeds s hs)).1

/-- C10: `run(duration)` checks `current_time < duration` before popping,
and `current_time` only advances inside `step`; hence when the queue is
non-empty and every queued event (in particular the earliest) lies at or
beyond the horizon while `current_time` is still below it, `run` still
pops, processes and logs that first event — and only then stops. -/
theorem run_processes_first_event_beyond_horizon (cfg : Config) (s : EngineState)
    (dur : ℚ) (n : ℕ) (entry : QEntry) (rest : List QEntry)
    (hpop : popMin s.event_queue = some (entry, rest))
    (hlt : s.current_time < dur)
    (hbeyond : ∀ q ∈ s.event_queue, dur ≤ q.time) :
    runFuel cfg (n + 1) dur s = stepFn cfg s ∧
    (stepFn cfg s).processed_events = s.processed_events ++ [entry.event] ∧
    (stepFn cfg s).current_time = entry.time ∧
    dur ≤ (stepFn cfg s).current_time := by
  have hne : s.event_queue ≠ [] := by
    intro hnil
    rw [hnil, popMin_nil] at hpop
    exact Option.noConfusion hpop
  have hstep : (stepFn cfg s).current_time = entry.time ∧
      (stepFn cfg s).processed_events = s.processed_events ++ [entry.event] := by
    unfold stepFn
    rw [hpop]
    dsimp only
    have hframe := processEvent_frame cfg
      { s with
        event_queue := rest
        current_time := entry.time
        processed_events := s.processed_events ++ [entry.event] } entry.event
    exact ⟨hframe.1, hframe.2.1⟩
  have hdur : dur ≤ (stepFn cfg s).current_time := by
    rw [hstep.1]
    exact hbeyond entry (popMin_mem hpop)
  refine ⟨?_, hstep.2, hstep.1, hdur⟩
  unfold runFuel
  rw [if_pos ⟨hne, hlt⟩]
  exact runFuel_stop cfg n dur (stepFn cfg s) (not_lt.mpr hdur)

/-- Concrete node A of the three-node chain graph A - B - C used by the
concrete runs below (every node has capacity 1). -/
def nodeA : Node := { id := "A", type := NodeType.warehouse, lat := 50, lon := 19, capacity := 1 }

/-- Concrete node B (the contended middle node). -/
def nodeB : Node := { id := "B", type := NodeType.hub, lat := 51, lon := 20, capacity := 1 }

/-- Concrete node C. -/
def nodeC : Node := { id := "C", type := NodeType.customer, lat := 52, lon := 21, capacity := 1 }

/-- Edge lookup of the chain graph: A-B and B-C bidirectionally, base
travel time 10 minutes. -/
def chainGetEdge (u v : String) : Option Edge :=
  if (u = "A" ∧ v = "B") ∨ (u = "B" ∧ v = "A") ∨ (u = "B" ∧ v = "C") ∨ (u = "C" ∧ v = "B")
  then some { source := u, target := v, base_travel_time := 10, distance_km := 10 }
  else none

/-- Shortest-path oracle of the chain graph for the pairs this run queries. -/
def chainSp (u v : String) : List String :=
  if u = "A" ∧ v = "C" then ["A", "B", "C"] else []

/-- Configuration of the concrete run: chain graph, and a draw stream whose
first two travel draws are (noise 1/2, spike check 1) twice — so both legs
take `max 1 (10 * (1 + 1/2)) = 15` minutes — and whose remaining draws
are 100 (service draws clamp to 100). -/
def cfgTrace : Config :=
  { getEdge := chainGetEdge
    sp := chainSp
    draws := fun n => if n = 0 ∨ n = 2 then 1 / 2 else if n = 1 ∨ n = 3 then 1 else 100 }

/-- The node map of the chain graph. -/
def traceNodes : List (String × Node) := [("A", nodeA), ("B", nodeB), ("C", nodeC)]

/-- A truck_spawn seed event at time 0. -/
def mkSpawn (tid nid : String) : Event :=
  { time := 0, truck_id := tid, node_id := nid, event_type := EventType.TRUCK_SPAWN }

/-- An order_created seed event at time 0. -/
def mkOrder (oid o d : String) : Event :=
  { time := 0, truck_id := "SYSTEM", node_id := o, event_type := EventType.ORDER_CREATED,
    details := [("order_id", DetailVal.str oid), ("origin", DetailVal.str o),
                ("destination", DetailVal.str d)] }

/-- Seeds of the concrete run: two trucks spawned at A, two orders A → C. -/
def traceSeeds : List Event :=
  [mkSpawn "T1" "A", mkSpawn "T2" "A", mkOrder "O1" "A" "C", mkOrder "O2" "A" "C"]

/-- The concrete run: seed, then step `n` times. -/
def traceState : ℕ → EngineState
  | 0 => pushAll (initState traceNodes) traceSeeds
  | n + 1 => stepFn cfgTrace (traceState n)

def traceS0 : EngineState :=
  ⟨[⟨0, 0, ⟨0, "T1", "A", EventType.TRUCK_SPAWN, 0, []⟩⟩, ⟨0, 1, ⟨0, "T2", "A", EventType.TRUCK_SPAWN, 0, []⟩⟩, ⟨0, 2, ⟨0, "SYSTEM", "A", EventType.ORDER_CREATED, 0, [("order_id", (DetailVal.str "O1")), ("origin", (DetailVal.str "A")), ("destination", (DetailVal.str "C"))]⟩⟩, ⟨0, 3, ⟨0, "SYSTEM", "A", EventType.ORDER_CREATED, 0, [("order_id", (DetailVal.str "O2")), ("origin", (DetailVal.str "A")), ("destination", (DetailVal.str "C"))]⟩⟩], 0, 4, [], [], [], [], [("A", ⟨"A", NodeType.warehouse, 50, 19, 1, false, [], 0⟩), ("B", ⟨"B", NodeType.hub, 51, 20, 1, false, [], 0⟩), ("C", ⟨"C", NodeType.customer, 52, 21, 1, false, [], 0⟩)], 0⟩

def traceS1 : EngineState :=
  ⟨[⟨0, 1, ⟨0, "T2", "A", EventType.TRUCK_SPAWN, 0, []⟩⟩, ⟨0, 2, ⟨0, "SYSTEM", "A", EventType.ORDER_CREATED, 0, [("order_id", (DetailVal.str "O1")), ("origin", (DetailVal.str "A")), ("destination", (DetailVal.str "C"))]⟩⟩, ⟨0, 3, ⟨0, "SYSTEM", "A", EventType.ORDER_CREATED, 0, [("order_id", (DetailVal.str "O2")), ("origin", (DetailVal.str "A")), ("destination", (DetailVal.str "C"))]⟩⟩], 0, 4, [⟨0, "T1", "A", EventType.TRUCK_SPAWN, 0, []⟩], [("T1", ⟨"T1", "A", [], 0, "general", 0, false, TruckStatus.IDLE, none, none, 0, 0⟩)], [], [], [("A", ⟨"A", NodeType.warehouse, 50, 19, 1, false, [], 0⟩), ("B", ⟨"B", NodeType.hub, 51, 20, 1, false, [], 0⟩), ("C", ⟨"C", NodeType.customer, 52, 21, 1, false, [], 0⟩)], 0⟩

def traceS2 : EngineState :=
  ⟨[⟨0, 2, ⟨0, "SYSTEM", "A", EventType.ORDER_CREATED, 0, [("order_id", (DetailVal.str "O1")), ("origin", (DetailVal.str "A")), ("destination", (DetailVal.str "C"))]⟩⟩, ⟨0, 3, ⟨0, "SYSTEM", "A", EventType.ORDER_CREATED, 0, [("order_id", (DetailVal.str "O2")), ("origin", (DetailVal.str "A")), ("destination", (DetailVal.str "C"))]⟩⟩], 0, 4, [⟨0, "T1", "A", EventType.TRUCK_SPAWN, 0, []⟩, ⟨0, "T2", "A", EventType.TRUCK_SPAWN, 0, []⟩], [("T1", ⟨"T1", "A", [], 0, "general", 0, false, TruckStatus.IDLE, none, none, 0, 0⟩), ("T2", ⟨"T2", "A", [], 0, "general", 0, false, TruckStatus.IDLE, none, none, 0, 0⟩)], [], [], [("A", ⟨"A", NodeType.warehouse, 50, 19, 1, false, [], 0⟩), ("B", ⟨"B", NodeType.hub, 51, 20, 1, false, [], 0⟩), ("C", ⟨"C", NodeType.customer, 52, 21, 1, false, [], 0⟩)], 0⟩

def traceS3 : EngineState :=
  ⟨[⟨0, 3, ⟨0, "SYSTEM", "A", EventType.ORDER_CREATED, 0, [("order_id", (DetailVal.str "O2")), ("origin", (DetailVal.str "A")), ("destination", (DetailVal.str "C"))]⟩⟩, ⟨0, 4, ⟨0, "T1", "A", EventType.ORDER_ASSIGNED, 0, [("order_id", (DetailVal.str "O1")), ("origin", (DetailVal.str "A")), ("destination", (DetailVal.str "C")), ("reason", (DetailVal.str "Nearest Idle Truck"))]⟩⟩, ⟨0, 5, ⟨0, "T1", "A", EventType.DEPART_NODE, 0, []⟩⟩], 0, 6, [⟨0, "T1", "A", EventType.TRUCK_SPAWN, 0, []⟩, ⟨0, "T2", "A", EventType.TRUCK_SPAWN, 0, []⟩, ⟨0, "SYSTEM", "A", EventType.ORDER_CREATED, 0, [("order_id", (DetailVal.str "O1")), ("origin", (DetailVal.str "A")), ("destination", (DetailVal.str "C"))]⟩], [("T1", ⟨"T1", "A", ["A", "B", "C"], 0, "general", 0, false, TruckStatus.EN_ROUTE_TO_PICKUP, none, (some "O1"), 0, 0⟩), ("T2", ⟨"T2", "A", [], 0, "general", 0, false, TruckStatus.IDLE, none, none, 0, 0⟩)], [("O1", ⟨"O1", "A", "C", 0, "ASSIGNED"⟩)], [], [("A", ⟨"A", NodeType.warehouse, 50, 19, 1, false, [], 0⟩), ("B", ⟨"B", NodeType.hub, 51, 20, 1, false, [], 0⟩), ("C", ⟨"C", NodeType.customer, 52, 21, 1, false, [], 0⟩)], 0⟩

def traceS4 : EngineState :=
  ⟨[⟨0, 4, ⟨0, "T1", "A", EventType.ORDER_ASSIGNED, 0, [("order_id", (DetailVal.str "O1")), ("origin", (DetailVal.str "A")), ("destination", (DetailVal.str "C")), ("reason", (DetailVal.str "Nearest Idle Truck"))]⟩⟩, ⟨0, 5, ⟨0, "T1", "A", EventType.DEPART_NODE, 0, []⟩⟩, ⟨0, 6, ⟨0, "T2", "A", EventType.ORDER_ASSIGNED, 0, [("order_id", (DetailVal.str "O2")), ("origin", (DetailVal.str "A")), ("destination", (DetailVal.str "C")), ("reason", (DetailVal.str "Nearest Idle Truck"))]⟩⟩, ⟨0, 7, ⟨0, "T2", "A", EventType.DEPART_NODE, 0, []⟩⟩], 0, 8, [⟨0, "T1", "A", EventType.TRUCK_SPAWN, 0, []⟩, ⟨0, "T2", "A", EventType.TRUCK_SPAWN, 0, []⟩, ⟨0, "SYSTEM", "A", EventType.ORDER_CREATED, 0, [("order_id", (DetailVal.str "O1")), ("origin", (DetailVal.str "A")), ("destination", (DetailVal.str "C"))]⟩, ⟨0, "SYSTEM", "A", EventType.ORDER_CREATED, 0, [("order_id", (DetailVal.str "O2")), ("origin", (DetailVal.str "A")), ("destination", (DetailVal.str "C"))]⟩], [("T1", ⟨"T1", "A", ["A", "B", "C"], 0, "general", 0, false, TruckStatus.EN_ROUTE_TO_PICKUP, none, (some "O1"), 0, 0⟩), ("T2", ⟨"T2", "A", ["A", "B", "C"], 0, "general", 0, false, TruckStatus.EN_ROUTE_TO_PICKUP, none, (some "O2"), 0, 0⟩)], [("O1", ⟨"O1", "A", "C", 0, "ASSIGNED"⟩), ("O2", ⟨"O2", "A", "C", 0, "ASSIGNED"⟩)], [], [("A", ⟨"A", NodeType.warehouse, 50, 19, 1, false, [], 0⟩), ("B", ⟨"B", NodeType.hub, 51, 20, 1, false, [], 0⟩), ("C", ⟨"C", NodeType.customer, 52, 21, 1, false, [], 0⟩)], 0⟩

def traceS5 : EngineState :=
  ⟨[⟨0, 5, ⟨0, "T1", "A", EventType.DEPART_NODE, 0, []⟩⟩, ⟨0, 6, ⟨0, "T2", "A", EventType.ORDER_ASSIGNED, 0, [("order_id", (DetailVal.str "O2")), ("origin", (DetailVal.str "A")), ("destination", (DetailVal.str "C")), ("reason", (DetailVal.str "Nearest Idle Truck"))]⟩⟩, ⟨0, 7, ⟨0, "T2", "A", EventType.DEPART_NODE, 0, []⟩⟩], 0, 8, [⟨0, "T1", "A", EventType.TRUCK_SPAWN, 0, []⟩, ⟨0, "T2", "A", EventType.TRUCK_SPAWN, 0, []⟩, ⟨0, "SYSTEM", "A", EventType.ORDER_CREATED, 0, [("order_id", (DetailVal.str "O1")), ("origin", (DetailVal.str "A")), ("destination", (DetailVal.str "C"))]⟩, ⟨0, "SYSTEM", "A", EventType.ORDER_CREATED, 0, [("order_id", (DetailVal.str "O2")), ("origin", (DetailVal.str "A")), ("destination", (DetailVal.str "C"))]⟩, ⟨0, "T1", "A", EventType.ORDER_ASSIGNED, 0, [("order_id", (DetailVal.str "O1")), ("origin", (DetailVal.str "A")), ("destination", (DetailVal.str "C")), ("reason", (DetailVal.str "Nearest Idle Truck"))]⟩], [("T1", ⟨"T1", "A", ["A", "B", "C"], 0, "general", 0, false, TruckStatus.EN_ROUTE_TO_PICKUP, none, (some "O1"), 0, 0⟩), ("T2", ⟨"T2", "A", ["A", "B", "C"], 0, "general", 0, false, TruckStatus.EN_ROUTE_TO_PICKUP, none, (some "O2"), 0, 0⟩)], [("O1", ⟨"O1", "A", "C", 0, "ASSIGNED"⟩), ("O2", ⟨"O2", "A", "C", 0, "ASSIGNED"⟩)], [], [("A", ⟨"A", NodeType.warehouse, 50, 19, 1, false, [], 0⟩), ("B", ⟨"B", NodeType.hub, 51, 20, 1, false, [], 0⟩), ("C", ⟨"C", NodeType.customer, 52, 21, 1, false, [], 0⟩)], 0⟩

def traceS6 : EngineState :=
  ⟨[⟨0, 6, ⟨0, "T2", "A", EventType.ORDER_ASSIGNED, 0, [("order_id", (DetailVal.str "O2")), ("origin", (DetailVal.str "A")), ("destination", (DetailVal.str "C")), ("reason", (DetailVal.str "Nearest Idle Truck"))]⟩⟩, ⟨0, 7, ⟨0, "T2", "A", EventType.DEPART_NODE, 0, []⟩⟩, ⟨15, 8, ⟨15, "T1", "B", EventType.ARRIVAL_NODE, 0, [("travel_duration", (DetailVal.num 15))]⟩⟩], 0, 9, [⟨0, "T1", "A", EventType.TRUCK_SPAWN, 0, []⟩, ⟨0, "T2", "A", EventType.TRUCK_SPAWN, 0, []⟩, ⟨0, "SYSTEM", "A", EventType.ORDER_CREATED, 0, [("order_id", (DetailVal.str "O1")), ("origin", (DetailVal.str "A")), ("destination", (DetailVal.str "C"))]⟩, ⟨0, "SYSTEM", "A", EventType.ORDER_CREATED, 0, [("order_id", (DetailVal.str "O2")), ("origin", (DetailVal.str "A")), ("destination", (DetailVal.str "C"))]⟩, ⟨0, "T1", "A", EventType.ORDER_ASSIGNED, 0, [("order_id", (DetailVal.str "O1")), ("origin", (DetailVal.str "A")), ("destination", (DetailVal.str "C")), ("reason", (DetailVal.str "Nearest Idle Truck"))]⟩, ⟨0, "T1", "A", EventType.DEPART_NODE, 0, []⟩], [("T1", ⟨"T1", "A", ["A", "B", "C"], 1, "general", 15, false, TruckStatus.EN_ROUTE_TO_PICKUP, none, (some "O1"), 0, 15⟩), ("T2", ⟨"T2", "A", ["A", "B", "C"], 0, "general", 0, false, TruckStatus.EN_ROUTE_TO_PICKUP, none, (some "O2"), 0, 0⟩)], [("O1", ⟨"O1", "A", "C", 0, "ASSIGNED"⟩), ("O2", ⟨"O2", "A", "C", 0, "ASSIGNED"⟩)], [], [("A", ⟨"A", NodeType.warehouse, 50, 19, 1, false, [], 0⟩), ("B", ⟨"B", NodeType.hub, 51, 20, 1, false, [], 0⟩), ("C", ⟨"C", NodeType.customer, 52, 21, 1, false, [], 0⟩)], 2⟩

def traceS7 : EngineState :=
  ⟨[⟨0, 7, ⟨0, "T2", "A", EventType.DEPART_NODE, 0, []⟩⟩, ⟨15, 8, ⟨15, "T1", "B", EventType.ARRIVAL_NODE, 0, [("travel_duration", (DetailVal.num 15))]⟩⟩], 0, 9, [⟨0, "T1", "A", EventType.TRUCK_SPAWN, 0, []⟩, ⟨0, "T2", "A", EventType.TRUCK_SPAWN, 0, []⟩, ⟨0, "SYSTEM", "A", EventType.ORDER_CREATED, 0, [("order_id", (DetailVal.str "O1")), ("origin", (DetailVal.str "A")), ("destination", (DetailVal.str "C"))]⟩, ⟨0, "SYSTEM", "A", EventType.ORDER_CREATED, 0, [("order_id", (DetailVal.str "O2")), ("origin", (DetailVal.str "A")), ("destination", (DetailVal.str "C"))]⟩, ⟨0, "T1", "A", EventType.ORDER_ASSIGNED, 0, [("order_id", (DetailVal.str "O1")), ("origin", (DetailVal.str "A")), ("destination", (DetailVal.str "C")), ("reason", (DetailVal.str "Nearest Idle Truck"))]⟩, ⟨0, "T1", "A", EventType.DEPART_NODE, 0, []⟩, ⟨0, "T2", "A", EventType.ORDER_ASSIGNED, 0, [("order_id", (DetailVal.str "O2")), ("origin", (DetailVal.str "A")), ("destination", (DetailVal.str "C")), ("reason", (DetailVal.str "Nearest Idle Truck"))]⟩], [("T1", ⟨"T1", "A", ["A", "B", "C"], 1, "general", 15, false, TruckStatus.EN_ROUTE_TO_PICKUP, none, (some "O1"), 0, 15⟩), ("T2", ⟨"T2", "A", ["A", "B", "C"], 0, "general", 0, false, TruckStatus.EN_ROUTE_TO_PICKUP, none, (some "O2"), 0, 0⟩)], [("O1", ⟨"O1", "A", "C", 0, "ASSIGNED"⟩), ("O2", ⟨"O2", "A", "C", 0, "ASSIGNED"⟩)], [], [("A", ⟨"A", NodeType.warehouse, 50, 19, 1, false, [], 0⟩), ("B", ⟨"B", NodeType.hub, 51, 20, 1, false, [], 0⟩), ("C", ⟨"C", NodeType.customer, 52, 21, 1, false, [], 0⟩)], 2⟩

def traceS8 : EngineState :=
  ⟨[⟨15, 8, ⟨15, "T1", "B", EventType.ARRIVAL_NODE, 0, [("travel_duration", (DetailVal.num 15))]⟩⟩, ⟨15, 9, ⟨15, "T2", "B", EventType.ARRIVAL_NODE, 0, [("travel_duration", (DetailVal.num 15))]⟩⟩], 0, 10, [⟨0, "T1", "A", EventType.TRUCK_SPAWN, 0, []⟩, ⟨0, "T2", "A", EventType.TRUCK_SPAWN, 0, []⟩, ⟨0, "SYSTEM", "A", EventType.ORDER_CREATED, 0, [("order_id", (DetailVal.str "O1")), ("origin", (DetailVal.str "A")), ("destination", (DetailVal.str "C"))]⟩, ⟨0, "SYSTEM", "A", EventType.ORDER_CREATED, 0, [("order_id", (DetailVal.str "O2")), ("origin", (DetailVal.str "A")), ("destination", (DetailVal.str "C"))]⟩, ⟨0, "T1", "A", EventType.ORDER_ASSIGNED, 0, [("order_id", (DetailVal.str "O1")), ("origin", (DetailVal.str "A")), ("destination", (DetailVal.str "C")), ("reason", (DetailVal.str "Nearest Idle Truck"))]⟩, ⟨0, "T1", "A", EventType.DEPART_NODE, 0, []⟩, ⟨0, "T2", "A", EventType.ORDER_ASSIGNED, 0, [("order_id", (DetailVal.str "O2")), ("origin", (DetailVal.str "A")), ("destination", (DetailVal.str "C")), ("reason", (DetailVal.str "Nearest Idle Truck"))]⟩, ⟨0, "T2", "A", EventType.DEPART_NODE, 0, []⟩], [("T1", ⟨"T1", "A", ["A", "B", "C"], 1, "general", 15, false, TruckStatus.EN_ROUTE_TO_PICKUP, none, (some "O1"), 0, 15⟩), ("T2", ⟨"T2", "A", ["A", "B", "C"], 1, "general", 15, false, TruckStatus.EN_ROUTE_TO_PICKUP, none, (some "O2"), 0, 15⟩)], [("O1", ⟨"O1", "A", "C", 0, "ASSIGNED"⟩), ("O2", ⟨"O2", "A", "C", 0, "ASSIGNED"⟩)], [], [("A", ⟨"A", NodeType.warehouse, 50, 19, 1, false, [], 0⟩), ("B", ⟨"B", NodeType.hub, 51, 20, 1, false, [], 0⟩), ("C", ⟨"C", NodeType.customer, 52, 21, 1, false, [], 0⟩)], 4⟩

def traceS9 : EngineState :=
  ⟨[⟨15, 9, ⟨15, "T2", "B", EventType.ARRIVAL_NODE, 0, [("travel_duration", (DetailVal.num 15))]⟩⟩, ⟨15, 10, ⟨15, "T1", "B", EventType.START_SERVICE, 0, []⟩⟩], 15, 11, [⟨0, "T1", "A", EventType.TRUCK_SPAWN, 0, []⟩, ⟨0, "T2", "A", EventType.TRUCK_SPAWN, 0, []⟩, ⟨0, "SYSTEM", "A", EventType.ORDER_CREATED, 0, [("order_id", (DetailVal.str "O1")), ("origin", (DetailVal.str "A")), ("destination", (DetailVal.str "C"))]⟩, ⟨0, "SYSTEM", "A", EventType.ORDER_CREATED, 0, [("order_id", (DetailVal.str "O2")), ("origin", (DetailVal.str "A")), ("destination", (DetailVal.str "C"))]⟩, ⟨0, "T1", "A", EventType.ORDER_ASSIGNED, 0, [("order_id", (DetailVal.str "O1")), ("origin", (DetailVal.str "A")), ("destination", (DetailVal.str "C")), ("reason", (DetailVal.str "Nearest Idle Truck"))]⟩, ⟨0, "T1", "A", EventType.DEPART_NODE, 0, []⟩, ⟨0, "T2", "A", EventType.ORDER_ASSIGNED, 0, [("order_id", (DetailVal.str "O2")), ("origin", (DetailVal.str "A")), ("destination", (DetailVal.str "C")), ("reason", (DetailVal.str "Nearest Idle Truck"))]⟩, ⟨0, "T2", "A", EventType.DEPART_NODE, 0, []⟩, ⟨15, "T1", "B", EventType.ARRIVAL_NODE, 0, [("travel_duration", (DetailVal.num 15))]⟩], [("T1", ⟨"T1", "B", ["A", "B", "C"], 1, "general", 15, false, TruckStatus.EN_ROUTE_TO_PICKUP, none, (some "O1"), 0, 0⟩), ("T2", ⟨"T2", "A", ["A", "B", "C"], 1, "general", 15, false, TruckStatus.EN_ROUTE_TO_PICKUP, none, (some "O2"), 0, 15⟩)], [("O1", ⟨"O1", "A", "C", 0, "ASSIGNED"⟩), ("O2", ⟨"O2", "A", "C", 0, "ASSIGNED"⟩)], [], [("A", ⟨"A", NodeType.warehouse, 50, 19, 1, false, [], 0⟩), ("B", ⟨"B", NodeType.hub, 51, 20, 1, false, [], 0⟩), ("C", ⟨"C", NodeType.customer, 52, 21, 1, false, [], 0⟩)], 4⟩

def traceS10 : EngineState :=
  ⟨[⟨15, 10, ⟨15, "T1", "B", EventType.START_SERVICE, 0, []⟩⟩, ⟨15, 11, ⟨15, "T2", "B", EventType.START_SERVICE, 0, []⟩⟩], 15, 12, [⟨0, "T1", "A", EventType.TRUCK_SPAWN, 0, []⟩, ⟨0, "T2", "A", EventType.TRUCK_SPAWN, 0, []⟩, ⟨0, "SYSTEM", "A", EventType.ORDER_CREATED, 0, [("order_id", (DetailVal.str "O1")), ("origin", (DetailVal.str "A")), ("destination", (DetailVal.str "C"))]⟩, ⟨0, "SYSTEM", "A", EventType.ORDER_CREATED, 0, [("order_id", (DetailVal.str "O2")), ("origin", (DetailVal.str "A")), ("destination", (DetailVal.str "C"))]⟩, ⟨0, "T1", "A", EventType.ORDER_ASSIGNED, 0, [("order_id", (DetailVal.str "O1")), ("origin", (DetailVal.str "A")), ("destination", (DetailVal.str "C")), ("reason", (DetailVal.str "Nearest Idle Truck"))]⟩, ⟨0, "T1", "A", EventType.DEPART_NODE, 0, []⟩, ⟨0, "T2", "A", EventType.ORDER_ASSIGNED, 0, [("order_id", (DetailVal.str "O2")), ("origin", (DetailVal.str "A")), ("destination", (DetailVal.str "C")), ("reason", (DetailVal.str "Nearest Idle Truck"))]⟩, ⟨0, "T2", "A", EventType.DEPART_NODE, 0, []⟩, ⟨15, "T1", "B", EventType.ARRIVAL_NODE, 0, [("travel_duration", (DetailVal.num 15))]⟩, ⟨15, "T2", "B", EventType.ARRIVAL_NODE, 0, [("travel_duration", (DetailVal.num 15))]⟩], [("T1", ⟨"T1", "B", ["A", "B", "C"], 1, "general", 15, false, TruckStatus.EN_ROUTE_TO_PICKUP, none, (some "O1"), 0, 0⟩), ("T2", ⟨"T2", "B", ["A", "B", "C"], 1, "general", 15, false, TruckStatus.EN_ROUTE_TO_PICKUP, none, (some "O2"), 0, 0⟩)], [("O1", ⟨"O1", "A", "C", 0, "ASSIGNED"⟩), ("O2", ⟨"O2", "A", "C", 0, "ASSIGNED"⟩)], [], [("A", ⟨"A", NodeType.warehouse, 50, 19, 1, false, [], 0⟩), ("B", ⟨"B", NodeType.hub, 51, 20, 1, false, [], 0⟩), ("C", ⟨"C", NodeType.customer, 52, 21, 1, false, [], 0⟩)], 4⟩

def traceS11 : EngineState :=
  ⟨[⟨15, 11, ⟨15, "T2", "B", EventType.START_SERVICE, 0, []⟩⟩, ⟨115, 12, ⟨115, "T1", "B", EventType.END_SERVICE, 0, [("service_duration", (DetailVal.num 100))]⟩⟩], 15, 13, [⟨0, "T1", "A", EventType.TRUCK_SPAWN, 0, []⟩, ⟨0, "T2", "A", EventType.TRUCK_SPAWN, 0, []⟩, ⟨0, "SYSTEM", "A", EventType.ORDER_CREATED, 0, [("order_id", (DetailVal.str "O1")), ("origin", (DetailVal.str "A")), ("destination", (DetailVal.str "C"))]⟩, ⟨0, "SYSTEM", "A", EventType.ORDER_CREATED, 0, [("order_id", (DetailVal.str "O2")), ("origin", (DetailVal.str "A")), ("destination", (DetailVal.str "C"))]⟩, ⟨0, "T1", "A", EventType.ORDER_ASSIGNED, 0, [("order_id", (DetailVal.str "O1")), ("origin", (DetailVal.str "A")), ("destination", (DetailVal.str "C")), ("reason", (DetailVal.str "Nearest Idle Truck"))]⟩, ⟨0, "T1", "A", EventType.DEPART_NODE, 0, []⟩, ⟨0, "T2", "A", EventType.ORDER_ASSIGNED, 0, [("order_id", (DetailVal.str "O2")), ("origin", (DetailVal.str "A")), ("destination", (DetailVal.str "C")), ("reason", (DetailVal.str "Nearest Idle Truck"))]⟩, ⟨0, "T2", "A", EventType.DEPART_NODE, 0, []⟩, ⟨15, "T1", "B", EventType.ARRIVAL_NODE, 0, [("travel_duration", (DetailVal.num 15))]⟩, ⟨15, "T2", "B", EventType.ARRIVAL_NODE, 0, [("travel_duration", (DetailVal.num 15))]⟩, ⟨15, "T1", "B", EventType.START_SERVICE, 0, []⟩], [("T1", ⟨"T1", "B", ["A", "B", "C"], 1, "general", 15, false, TruckStatus.EN_ROUTE_TO_PICKUP, none, (some "O1"), 0, 0⟩), ("T2", ⟨"T2", "B", ["A", "B", "C"], 1, "general", 15, false, TruckStatus.EN_ROUTE_TO_PICKUP, none, (some "O2"), 0, 0⟩)], [("O1", ⟨"O1", "A", "C", 0, "ASSIGNED"⟩), ("O2", ⟨"O2", "A", "C", 0, "ASSIGNED"⟩)], [], [("A", ⟨"A", NodeType.warehouse, 50, 19, 1, false, [], 0⟩), ("B", ⟨"B", NodeType.hub, 51, 20, 1, false, [], 1⟩), ("C", ⟨"C", NodeType.customer, 52, 21, 1, false, [], 0⟩)], 5⟩

def traceS12 : EngineState :=
  ⟨[⟨115, 12, ⟨115, "T1", "B", EventType.END_SERVICE, 0, [("service_duration", (DetailVal.num 100))]⟩⟩, ⟨115, 13, ⟨115, "T2", "B", EventType.END_SERVICE, 0, [("service_duration", (DetailVal.num 100))]⟩⟩], 15, 14, [⟨0, "T1", "A", EventType.TRUCK_SPAWN, 0, []⟩, ⟨0, "T2", "A", EventType.TRUCK_SPAWN, 0, []⟩, ⟨0, "SYSTEM", "A", EventType.ORDER_CREATED, 0, [("order_id", (DetailVal.str "O1")), ("origin", (DetailVal.str "A")), ("destination", (DetailVal.str "C"))]⟩, ⟨0, "SYSTEM", "A", EventType.ORDER_CREATED, 0, [("order_id", (DetailVal.str "O2")), ("origin", (DetailVal.str "A")), ("destination", (DetailVal.str "C"))]⟩, ⟨0, "T1", "A", EventType.ORDER_ASSIGNED, 0, [("order_id", (DetailVal.str "O1")), ("origin", (DetailVal.str "A")), ("destination", (DetailVal.str "C")), ("reason", (DetailVal.str "Nearest Idle Truck"))]⟩, ⟨0, "T1", "A", EventType.DEPART_NODE, 0, []⟩, ⟨0, "T2", "A", EventType.ORDER_ASSIGNED, 0, [("order_id", (DetailVal.str "O2")), ("origin", (DetailVal.str "A")), ("destination", (DetailVal.str "C")), ("reason", (DetailVal.str "Nearest Idle Truck"))]⟩, ⟨0, "T2", "A", EventType.DEPART_NODE, 0, []⟩, ⟨15, "T1", "B", EventType.ARRIVAL_NODE, 0, [("travel_duration", (DetailVal.num 15))]⟩, ⟨15, "T2", "B", EventType.ARRIVAL_NODE, 0, [("travel_duration", (DetailVal.num 15))]⟩, ⟨15, "T1", "B", EventType.START_SERVICE, 0, []⟩, ⟨15, "T2", "B", EventType.START_SERVICE, 0, []⟩], [("T1", ⟨"T1", "B", ["A", "B", "C"], 1, "general", 15, false, TruckStatus.EN_ROUTE_TO_PICKUP, none, (some "O1"), 0, 0⟩), ("T2", ⟨"T2", "B", ["A", "B", "C"], 1, "general", 15, false, TruckStatus.EN_ROUTE_TO_PICKUP, none, (some "O2"), 0, 0⟩)], [("O1", ⟨"O1", "A", "C", 0, "ASSIGNED"⟩), ("O2", ⟨"O2", "A", "C", 0, "ASSIGNED"⟩)], [], [("A", ⟨"A", NodeType.warehouse, 50, 19, 1, false, [], 0⟩), ("B", ⟨"B", NodeType.hub, 51, 20, 1, false, [], 2⟩), ("C", ⟨"C", NodeType.customer, 52, 21, 1, false, [], 0⟩)], 6⟩

theorem traceStep0 : pushAll (initState traceNodes) traceSeeds = traceS0 := by
  norm_num +decide [pushAll, initState, traceNodes, traceSeeds, mkSpawn, mkOrder,
    scheduleEvent, nodeA, nodeB, nodeC, List.foldl, traceS0]

theorem traceStep1 : stepFn cfgTrace traceS0 = traceS1 := by
  norm_num +decide [stepFn, popMin, processEvent, handleTruckSpawn, handleOrderCreated,
    handleArrival, handleStartService, handleEndService, handleDepart, handleStartRest,
    handleEndRest, dispatcherLogic, assignOrderToTruck, planRoute, promoteQueueHead,
    endServiceTail, scheduleEvent, getTravelTime, getServiceTime, drawRand, findVal,
    setKey, cfgTrace, chainGetEdge, chainSp, traceS0, traceS1]

theorem traceStep2 : stepFn cfgTrace traceS1 = traceS2 := by
  norm_num +decide [stepFn, popMin, processEvent, handleTruckSpawn, handleOrderCreated,
    handleArrival, handleStartService, handleEndService, handleDepart, handleStartRest,
    handleEndRest, dispatcherLogic, assignOrderToTruck, planRoute, promoteQueueHead,
    endServiceTail, scheduleEvent, getTravelTime, getServiceTime, drawRand, findVal,
    setKey, cfgTrace, chainGetEdge, chainSp, traceS1, traceS2]

theorem traceStep3 : stepFn cfgTrace traceS2 = traceS3 := by
  norm_num +decide [stepFn, popMin, processEvent, handleTruckSpawn, handleOrderCreated,
    handleArrival, handleStartService, handleEndService, handleDepart, handleStartRest,
    handleEndRest, dispatcherLogic, assignOrderToTruck, planRoute, promoteQueueHead,
    endServiceTail, scheduleEvent, getTravelTime, getServiceTime, drawRand, findVal,
    setKey, cfgTrace, chainGetEdge, chainSp, traceS2, traceS3]

theorem traceStep4 : stepFn cfgTrace traceS3 = traceS4 := by
  norm_num +decide [stepFn, popMin, processEvent, handleTruckSpawn, handleOrderCreated,
    handleArrival, handleStartService, handleEndService, handleDepart, handleStartRest,
    handleEndRest, dispatcherLogic, assignOrderToTruck, planRoute, promoteQueueHead,
    endServiceTail, scheduleEvent, getTravelTime, getServiceTime, drawRand, findVal,
    setKey, cfgTrace, chainGetEdge, chainSp, traceS3, traceS4]

theorem traceStep5 : stepFn cfgTrace traceS4 = traceS5 := by
  norm_num +decide [stepFn, popMin, processEvent, handleTruckSpawn, handleOrderCreated,
    handleArrival, handleStartService, handleEndService, handleDepart, handleStartRest,
    handleEndRest, dispatcherLogic, assignOrderToTruck, planRoute, promoteQueueHead,
    endServiceTail, scheduleEvent, getTravelTime, getServiceTime, drawRand, findVal,
    setKey, cfgTrace, chainGetEdge, chainSp, traceS4, traceS5]

theorem traceStep6 : stepFn cfgTrace traceS5 = traceS6 := by
  norm_num +decide [stepFn, popMin, processEvent, handleTruckSpawn, handleOrderCreated,
    handleArrival, handleStartService, handleEndService, handleDepart, handleStartRest,
    handleEndRest, dispatcherLogic, assignOrderToTruck, planRoute, promoteQueueHead,
    endServiceTail, scheduleEvent, getTravelTime, getServiceTime, drawRand, findVal,
    setKey, cfgTrace, chainGetEdge, chainSp, traceS5, traceS6]

theorem traceStep7 : stepFn cfgTrace traceS6 = traceS7 := by
  norm_num +decide [stepFn, popMin, processEvent, handleTruckSpawn, handleOrderCreated,
    handleArrival, handleStartService, handleEndService, handleDepart, handleStartRest,
    handleEndRest, dispatcherLogic, assignOrderToTruck, planRoute, promoteQueueHead,
    endServiceTail, scheduleEvent, getTravelTime, getServiceTime, drawRand, findVal,
    setKey, cfgTrace, chainGetEdge, chainSp, traceS6, traceS7]

theorem traceStep8 : stepFn cfgTrace traceS7 = traceS8 := by
  norm_num +decide [stepFn, popMin, processEvent, handleTruckSpawn, handleOrderCreated,
    handleArrival, handleStartService, handleEndService, handleDepart, handleStartRest,
    handleEndRest, dispatcherLogic, assignOrderToTruck, planRoute, promoteQueueHead,
    endServiceTail, scheduleEvent, getTravelTime, getServiceTime, drawRand, findVal,
    setKey, cfgTrace, chainGetEdge, chainSp, traceS7, traceS8]

theorem traceStep9 : stepFn cfgTrace traceS8 = traceS9 := by
  norm_num +decide [stepFn, popMin, processEvent, handleTruckSpawn, handleOrderCreated,
    handleArrival, handleStartService, handleEndService, handleDepart, handleStartRest,
    handleEndRest, dispatcherLogic, assignOrderToTruck, planRoute, promoteQueueHead,
    endServiceTail, scheduleEvent, getTravelTime, getServiceTime, drawRand, findVal,
    setKey, cfgTrace, chainGetEdge, chainSp, traceS8, traceS9]

theorem traceStep10 : stepFn cfgTrace traceS9 = traceS10 := by
  norm_num +decide [stepFn, popMin, processEvent, handleTruckSpawn, handleOrderCreated,
    handleArrival, handleStartService, handleEndService, handleDepart, handleStartRest,
    handleEndRest, dispatcherLogic, assignOrderToTruck, planRoute, promoteQueueHead,
    endServiceTail, scheduleEvent, getTravelTime, getServiceTime, drawRand, findVal,
    setKey, cfgTrace, chainGetEdge, chainSp, traceS9, traceS10]

theorem traceStep11 : stepFn cfgTrace traceS10 = traceS11 := by
  norm_num +decide [stepFn, popMin, processEvent, handleTruckSpawn, handleOrderCreated,
    handleArrival, handleStartService, handleEndService, handleDepart, handleStartRest,
    handleEndRest, dispatcherLogic, assignOrderToTruck, planRoute, promoteQueueHead,
    endServiceTail, scheduleEvent, getTravelTime, getServiceTime, drawRand, findVal,
    setKey, cfgTrace, chainGetEdge, chainSp, traceS10, traceS11]

theorem traceStep12 : stepFn cfgTrace traceS11 = traceS12 := by
  norm_num +decide [stepFn, popMin, processEvent, handleTruckSpawn, handleOrderCreated,
    handleArrival, handleStartService, handleEndService, handleDepart, handleStartRest,
    handleEndRest, dispatcherLogic, assignOrderToTruck, planRoute, promoteQueueHead,
    endServiceTail, scheduleEvent, getTravelTime, getServiceTime, drawRand, findVal,
    setKey, cfgTrace, chainGetEdge, chainSp, traceS11, traceS12]

theorem traceState_12 : traceState 12 = traceS12 := by
  have e0 : traceState 0 = traceS0 := traceStep0
  have e1 : traceState 1 = traceS1 := by
    rw [show traceState 1 = stepFn cfgTrace (traceState 0) from rfl, e0]
    exact traceStep1
  have e2 : traceState 2 = traceS2 := by
    rw [show traceState 2 = stepFn cfgTrace (traceState 1) from rfl, e1]
    exact traceStep2
  have e3 : traceState 3 = traceS3 := by
    rw [show traceState 3 = stepFn cfgTrace (traceState 2) from rfl, e2]
    exact traceStep3
  have e4 : traceState 4 = traceS4 := by
    rw [show traceState 4 = stepFn cfgTrace (traceState 3) from rfl, e3]
    exact traceStep4
  have e5 : traceState 5 = traceS5 := by
    rw [show traceState 5 = stepFn cfgTrace (traceState 4) from rfl, e4]
    exact traceStep5
  have e6 : traceState 6 = traceS6 := by
    rw [show traceState 6 = stepFn cfgTrace (traceState 5) from rfl, e5]
    exact traceStep6
  have e7 : traceState 7 = traceS7 := by
    rw [show traceState 7 = stepFn cfgTrace (traceState 6) from rfl, e6]
    exact traceStep7
  have e8 : traceState 8 = traceS8 := by
    rw [show traceState 8 = stepFn cfgTrace (traceState 7) from rfl, e7]
    exact traceStep8
  have e9 : traceState 9 = traceS9 := by
    rw [show traceState 9 = stepFn cfgTrace (traceState 8) from rfl, e8]
    exact traceStep9
  have e10 : traceState 10 = traceS10 := by
    rw [show traceState 10 = stepFn cfgTrace (traceState 9) from rfl, e9]
    exact traceStep10
  have e11 : traceState 11 = traceS11 := by
    rw [show traceState 11 = stepFn cfgTrace (traceState 10) from rfl, e10]
    exact traceStep11
  have e12 : traceState 12 = traceS12 := by
    rw [show traceState 12 = stepFn cfgTrace (traceState 11) from rfl, e11]
    exact traceStep12
  exact e12

/-- C1: the claim fails on the code.  `handle_arrival` checks
`busy_count < capacity` when the truck arrives, but `busy_count` is only
incremented later, by `handle_start_service`; the `start_service` events of
trucks arriving at the same instant carry larger insertion counters than
both arrivals, so they run only after every simultaneous arrival has
already passed the capacity check.  In this seeded run (two trucks and two
orders A → C over the chain A-B-C, with equal travel draws) both trucks
arrive at node B — capacity 1, busy_count 0 — at t = 15; each arrival sees
`busy_count = 0 < 1` and schedules `start_service`, and after the two
`start_service` events node B has `busy_count = 2 > capacity = 1`: the
invariant `0 ≤ busy_count ≤ capacity` is violated at an event boundary.
The processed-event log below exhibits the run. -/
theorem busy_count_can_exceed_capacity_on_simultaneous_arrivals :
    (∃ node : Node, findVal (traceState 12).nodes "B" = some node ∧
      node.busy_count = 2 ∧ node.capacity = 1 ∧ node.capacity < node.busy_count) ∧
    (traceState 12).processed_events.map (fun ev => (ev.event_type, ev.truck_id, ev.time)) =
      [(EventType.TRUCK_SPAWN, "T1", 0), (EventType.TRUCK_SPAWN, "T2", 0),
       (EventType.ORDER_CREATED, "SYSTEM", 0), (EventType.ORDER_CREATED, "SYSTEM", 0),
       (EventType.ORDER_ASSIGNED, "T1", 0), (EventType.DEPART_NODE, "T1", 0),
       (EventType.ORDER_ASSIGNED, "T2", 0), (EventType.DEPART_NODE, "T2", 0),
       (EventType.ARRIVAL_NODE, "T1", 15), (EventType.ARRIVAL_NODE, "T2", 15),
       (EventType.START_SERVICE, "T1", 15), (EventType.START_SERVICE, "T2", 15)] := by
  rw [traceState_12]
  constructor
  · refine ⟨⟨"B", NodeType.hub, 51, 20, 1, false, [], 2⟩, ?_, rfl, rfl, by norm_num⟩
    norm_num +decide [findVal, traceS12]
  · norm_num +decide [traceS12]

/-- A payload event reused by the concrete queue entries below. -/
def evTie : Event :=
  { time := 3, truck_id := "x", node_id := "y", event_type := EventType.ORDER_ASSIGNED }

/-- Entry at time 5, inserted first. -/
def qEarlyLate : QEntry := ⟨5, 0, { evTie with time := 5 }⟩

/-- Entry at the minimal time 3, inserted second. -/
def qMinFirst : QEntry := ⟨3, 1, evTie⟩

/-- Entry also at time 3, inserted third. -/
def qMinSecond : QEntry := ⟨3, 2, evTie⟩

/-- Witness for C4: on the concrete queue `[qEarlyLate, qMinFirst,
qMinSecond]` the pop selects `qMinFirst` — minimal time 3 and, among the
two time-3 entries, the smaller counter. -/
theorem queue_pop_min_time_fifo_witness :
    qMinFirst ∈ [qEarlyLate, qMinFirst, qMinSecond] ∧
    (qMinFirst.time < qMinSecond.time ∨
      (qMinFirst.time = qMinSecond.time ∧ qMinFirst.cnt ≤ qMinSecond.cnt)) := by
  have h := queue_pop_min_time_fifo [qEarlyLate, qMinFirst, qMinSecond]
    qMinFirst [qEarlyLate, qMinSecond] (by decide)
  exact ⟨h.1, h.2.2.1 qMinSecond (by decide)⟩

/-- Witness for C5 at a concrete run: one spawn seed at time 0 on the chain
graph; the first step does not decrease `current_time`. -/
theorem current_time_nondecreasing_witness :
    (pushAll (initState traceNodes) [mkSpawn "T1" "A"]).current_time ≤
      (stepFn cfgTrace (pushAll (initState traceNodes) [mkSpawn "T1" "A"])).current_time :=
  current_time_nondecreasing cfgTrace traceNodes [mkSpawn "T1" "A"]
    (by
      intro e he
      simp only [List.mem_singleton] at he
      subst he
      norm_num [mkSpawn])
    _ Reachable.init

/-- A spawn seed scheduled at time 3, used by the C10 witness. -/
def spawnLater : Event := { mkSpawn "T1" "A" with time := 3 }

/-- Witness for C10: a single seed at time 3 with horizon 2 — the seeded
event lies beyond the horizon, yet `run` still performs exactly one step. -/
theorem run_processes_first_event_beyond_horizon_witness :
    runFuel cfgTrace 5 2 (pushAll (initState traceNodes) [spawnLater]) =
      stepFn cfgTrace (pushAll (initState traceNodes) [spawnLater]) :=
  (run_processes_first_event_beyond_horizon cfgTrace
    (pushAll (initState traceNodes) [spawnLater]) 2 4 ⟨3, 0, spawnLater⟩ []
    (by decide) (by decide) (by decide)).1

theorem findVal_mem {κ α : Type} [DecidableEq κ] {l : List (κ × α)} {key : κ} {v : α}
    (h : findVal l key = some v) : (key, v) ∈ l := by
  induction l with
  | nil => simp [findVal] at h
  | cons hd tl ih =>
    obtain ⟨k, w⟩ := hd
    by_cases hk : k = key
    · subst hk
      simp [findVal] at h
      subst h
      exact List.mem_cons_self _ _
    · simp only [findVal, if_neg hk] at h
      exact List.mem_cons_of_mem _ (ih h)

theorem mem_setKey {κ α : Type} [DecidableEq κ] {l : List (κ × α)} {k : κ} {v : α}
    {p : κ × α} (h : p ∈ setKey l k v) : p ∈ l ∨ p = (k, v) := by
  induction l with
  | nil =>
    simp [setKey] at h
    exact Or.inr h
  | cons hd tl ih =>
    obtain ⟨k0, w⟩ := hd
    by_cases hk : k0 = k
    · subst hk
      simp only [setKey, if_pos rfl] at h
      rcases List.mem_cons.mp h with h | h
      · exact Or.inr h
      · exact Or.inl (List.mem_cons_of_mem _ h)
    · simp only [setKey, if_neg hk] at h
      rcases List.mem_cons.mp h with h | h
      · exact Or.inl (h ▸ List.mem_cons_self _ _)
      · rcases ih h with h | h
        · exact Or.inl (List.mem_cons_of_mem _ h)
        · exact Or.inr h

/-- The driving-time bound every truck record satisfies in reachable
states, given an upper bound `L` on every travel time the delay model can
produce for this configuration. -/
def TrucksOK (L : ℚ) (l : List (String × Truck)) : Prop :=
  ∀ p ∈ l, 0 ≤ (p.2).driving_time_since_rest ∧ (p.2).driving_time_since_rest ≤ max 480 L

theorem TrucksOK.insert {L : ℚ} {l : List (String × Truck)} {k : String} {v : Truck}
    (h : TrucksOK L l) (h0 : 0 ≤ v.driving_time_since_rest)
    (h1 : v.driving_time_since_rest ≤ max 480 L) : TrucksOK L (setKey l k v) := by
  intro p hp
  rcases mem_setKey hp with hp | hp
  · exact h p hp
  · subst hp
    exact ⟨h0, h1⟩

theorem TrucksOK.of_findVal {L : ℚ} {l : List (String × Truck)} {k : String} {t : Truck}
    (h : TrucksOK L l) (hf : findVal l k = some t) :
    0 ≤ t.driving_time_since_rest ∧ t.driving_time_since_rest ≤ max 480 L :=
  h (k, t) (findVal_mem hf)

theorem zero_le_max480 (L : ℚ) : (0 : ℚ) ≤ max 480 L :=
  le_trans (by norm_num) (le_max_left _ _)

theorem assignOrderToTruck_trucksOK {L : ℚ} (cfg : Config) (s : EngineState)
    (order : Order) (truck : Truck) (hs : TrucksOK L s.trucks)
    (h0 : 0 ≤ truck.driving_time_since_rest)
    (h1 : truck.driving_time_since_rest ≤ max 480 L) :
    TrucksOK L (assignOrderToTruck cfg s order truck).trucks := by
  unfold assignOrderToTruck
  dsimp only
  split
  · exact hs
  · split
    · refine TrucksOK.insert ?_ h0 h1
      exact TrucksOK.insert hs h0 h1
    · refine TrucksOK.insert ?_ h0 h1
      exact TrucksOK.insert hs h0 h1

theorem dispatcherLogic_trucksOK {L : ℚ} (cfg : Config) (s : EngineState)
    (hs : TrucksOK L s.trucks) : TrucksOK L (dispatcherLogic cfg s).trucks := by
  unfold dispatcherLogic
  dsimp only
  split
  · exact hs
  · split
    · exact hs
    · split
      · exact hs
      · split
        · exact hs
        · rename_i best heq
          have hbest : best ∈ s.trucks.map Prod.snd :=
            List.mem_of_mem_filter (List.mem_of_mem_head? heq)
          obtain ⟨p, hp, hpe⟩ := List.mem_map.mp hbest
          have hb := hs p hp
          rw [hpe] at hb
          exact assignOrderToTruck_trucksOK cfg s _ best hs hb.1 hb.2

theorem handleTruckSpawn_trucksOK {L : ℚ} (cfg : Config) (s : EngineState) (e : Event)
    (hs : TrucksOK L s.trucks) : TrucksOK L (handleTruckSpawn cfg s e).trucks := by
  unfold handleTruckSpawn
  dsimp only
  refine dispatcherLogic_trucksOK cfg _ ?_
  refine TrucksOK.insert hs ?_ ?_
  · exact le_refl 0
  · exact zero_le_max480 L

theorem handleOrderCreated_trucksOK {L : ℚ} (cfg : Config) (s : EngineState) (e : Event)
    (hs : TrucksOK L s.trucks) : TrucksOK L (handleOrderCreated cfg s e).trucks := by
  unfold handleOrderCreated
  dsimp only
  split
  · exact dispatcherLogic_trucksOK cfg _ hs
  · exact hs

theorem handleArrival_trucksOK {L : ℚ} (cfg : Config) (s : EngineState) (e : Event)
    (hs : TrucksOK L s.trucks) : TrucksOK L (handleArrival cfg s e).trucks := by
  unfold handleArrival
  dsimp only
  split
  · exact hs
  · split
    · exact hs
    · rename_i truck heq
      have hb := hs.of_findVal heq
      split
      · refine TrucksOK.insert hs ?_ ?_
        · exact hb.1
        · exact hb.2
      · refine TrucksOK.insert hs ?_ ?_
        · exact hb.1
        · exact hb.2

theorem handleStartService_trucksOK {L : ℚ} (cfg : Config) (s : EngineState) (e : Event)
    (hs : TrucksOK L s.trucks) : TrucksOK L (handleStartService cfg s e).trucks := by
  unfold handleStartService
  dsimp only
  split
  · exact hs
  · exact hs

theorem promoteQueueHead_trucks (s : EngineState) (key : String) (node : Node) :
    (promoteQueueHead s key node).trucks = s.trucks := by
  unfold promoteQueueHead
  dsimp only
  split <;> rfl

theorem endServiceTail_trucks (s : EngineState) (e : Event) (truck : Truck) (node : Node) :
    (endServiceTail s e truck node).trucks = s.trucks := by
  unfold endServiceTail
  dsimp only
  split
  · rw [promoteQueueHead_trucks]
    rfl
  · rw [promoteQueueHead_trucks]

theorem handleEndService_trucksOK {L : ℚ} (cfg : Config) (s : EngineState) (e : Event)
    (hs : TrucksOK L s.trucks) : TrucksOK L (handleEndService cfg s e).trucks := by
  unfold handleEndService
  dsimp only
  split
  · exact hs
  · split
    · exact hs
    · rename_i truck heq
      have hb := hs.of_findVal heq
      split
      · split
        · exact hs
        · split
          · rw [endServiceTail_trucks]
            refine TrucksOK.insert hs ?_ ?_
            · exact hb.1
            · exact hb.2
          · split
            · rw [promoteQueueHead_trucks]
              refine TrucksOK.insert hs ?_ ?_
              · exact hb.1
              · exact hb.2
            · rw [endServiceTail_trucks]
              exact hs
      · rw [endServiceTail_trucks]
        exact hs

theorem handleDepart_trucksOK {L : ℚ} (cfg : Config) (s : EngineState) (e : Event)
    (htravel : ∀ (u v : String) (edge : Edge) (s1 : EngineState),
      cfg.getEdge u v = some edge → (getTravelTime cfg edge.base_travel_time s1).1 ≤ L)
    (hs : TrucksOK L s.trucks) : TrucksOK L (handleDepart cfg s e).trucks := by
  unfold handleDepart
  dsimp only
  split
  · exact hs
  · rename_i truck heqt
    have hb := hs.of_findVal heqt
    split
    · exact hs
    · split
      · split
        · exact hs
        · split
          · exact hs
          · rename_i edge heqe
            generalize hdraw : getTravelTime cfg edge.base_travel_time s = p
            obtain ⟨tv, s1⟩ := p
            have htv1 : 1 ≤ tv := by
              have h1 : (getTravelTime cfg edge.base_travel_time s).1 = tv := by
                rw [hdraw]
              rw [← h1]
              exact getTravelTime_ge_one cfg _ _
            have htvL : tv ≤ L := by
              have h1 : (getTravelTime cfg edge.base_travel_time s).1 = tv := by
                rw [hdraw]
              rw [← h1]
              exact htravel _ _ edge s heqe
            have hsnd : s1 = (getTravelTime cfg edge.base_travel_time s).2 :=
              (congrArg Prod.snd hdraw).symm
            rw [getTravelTime_snd] at hsnd
            subst hsnd
            split
            · exact hs
            · rename_i hrest
              push_neg at hrest
              refine TrucksOK.insert hs ?_ ?_
              · have h2 : (0 : ℚ) ≤ tv := le_trans (by norm_num) htv1
                exact add_nonneg hb.1 h2
              · by_cases hpos : 0 < truck.driving_time_since_rest
                · have h480 := hrest hpos
                  exact le_trans h480 (le_max_left _ _)
                · have hz : truck.driving_time_since_rest = 0 :=
                    le_antisymm (not_lt.mp hpos) hb.1
                  rw [hz, zero_add]
                  exact le_trans htvL (le_max_right _ _)
      · exact hs

theorem handleStartRest_trucksOK {L : ℚ} (cfg : Config) (s : EngineState) (e : Event)
    (hs : TrucksOK L s.trucks) : TrucksOK L (handleStartRest cfg s e).trucks := by
  unfold handleStartRest
  dsimp only
  split
  · exact hs
  · rename_i truck heq
    have hb := hs.of_findVal heq
    refine TrucksOK.insert hs ?_ ?_
    · exact hb.1
    · exact hb.2

theorem handleEndRest_trucksOK {L : ℚ} (cfg : Config) (s : EngineState) (e : Event)
    (hs : TrucksOK L s.trucks) : TrucksOK L (handleEndRest cfg s e).trucks := by
  unfold handleEndRest
  dsimp only
  split
  · exact hs
  · refine TrucksOK.insert hs ?_ ?_
    · exact le_refl 0
    · exact zero_le_max480 L

theorem processEvent_trucksOK {L : ℚ} (cfg : Config) (s : EngineState) (e : Event)
    (htravel : ∀ (u v : String) (edge : Edge) (s1 : EngineState),
      cfg.getEdge u v = some edge → (getTravelTime cfg edge.base_travel_time s1).1 ≤ L)
    (hs : TrucksOK L s.trucks) : TrucksOK L (processEvent cfg s e).trucks := by
  unfold processEvent
  cases e.event_type
  · exact handleArrival_trucksOK cfg s e hs
  · exact handleStartService_trucksOK cfg s e hs
  · exact handleEndService_trucksOK cfg s e hs
  · exact handleDepart_trucksOK cfg s e htravel hs
  · exact handleTruckSpawn_trucksOK cfg s e hs
  · exact handleStartRest_trucksOK cfg s e hs
  · exact handleEndRest_trucksOK cfg s e hs
  · exact handleOrderCreated_trucksOK cfg s e hs
  · exact hs

theorem stepFn_trucksOK {L : ℚ} (cfg : Config) (s : EngineState)
    (htravel : ∀ (u v : String) (edge : Edge) (s1 : EngineState),
      cfg.getEdge u v = some edge → (getTravelTime cfg edge.base_travel_time s1).1 ≤ L)
    (hs : TrucksOK L s.trucks) : TrucksOK L (stepFn cfg s).trucks := by
  unfold stepFn
  cases hp : popMin s.event_queue with
  | none => exact hs
  | some p =>
    obtain ⟨entry, rest⟩ := p
    dsimp only
    exact processEvent_trucksOK cfg _ entry.event htravel hs

theorem pushAll_trucks (events : List Event) (s : EngineState) :
    (pushAll s events).trucks = s.trucks := by
  induction events generalizing s with
  | nil => rfl
  | cons e es ih => exact ih (scheduleEvent s e)

theorem reachable_trucksOK {L : ℚ} (cfg : Config) (nodes0 : List (String × Node))
    (seeds : List Event)
    (htravel : ∀ (u v : String) (edge : Edge) (s1 : EngineState),
      cfg.getEdge u v = some edge → (getTravelTime cfg edge.base_travel_time s1).1 ≤ L) :
    ∀ s, Reachable cfg nodes0 seeds s → TrucksOK L s.trucks := by
  intro s hs
  induction hs with
  | init =>
    rw [pushAll_trucks]
    intro p hp
    simp [initState] at hp
  | step s1 _ ih => exact stepFn_trucksOK cfg s1 htravel ih

/-- C3: rest enforcement.  If every travel time the delay model can return
for an edge of this configuration is at most `L` (with `0 ≤ L`), then (a)
in every reachable state every truck satisfies `driving_time_since_rest ≤
480 + L` — a leg that pushes the accumulator past 480 can only have been
begun at `driving_time_since_rest = 0`, so the accumulator never exceeds
480 by more than one leg's travel; (b) whenever `handle_depart` fires for a
truck with `driving_time_since_rest > 0` and the drawn travel would push it
past 480, the handler only schedules `start_rest` at the current time — the
truck map is unchanged (no index advance, no accumulator change) and no
`arrival_node` is scheduled; (c) `handle_end_rest` stores a truck record
with `driving_time_since_rest = 0` and schedules an immediate
`depart_node`. -/
theorem rest_policy_bounds_driving_time (cfg : Config) (nodes0 : List (String × Node))
    (seeds : List Event) (L : ℚ) (hL : 0 ≤ L)
    (htravel : ∀ (u v : String) (edge : Edge) (s1 : EngineState),
      cfg.getEdge u v = some edge → (getTravelTime cfg edge.base_travel_time s1).1 ≤ L) :
    (∀ s, Reachable cfg nodes0 seeds s → ∀ (k : String) (t : Truck),
      findVal s.trucks k = some t → t.driving_time_since_rest ≤ 480 + L) ∧
    (∀ (s : EngineState) (e : Event) (t : Truck) (nxt : String) (edge : Edge),
      findVal s.trucks e.truck_id = some t →
      t.route ≠ [] →
      t.current_node_index < t.route.length - 1 →
      t.route.get? (t.current_node_index + 1) = some nxt →
      cfg.getEdge e.node_id nxt = some edge →
      0 < t.driving_time_since_rest →
      480 < t.driving_time_since_rest + (getTravelTime cfg edge.base_travel_time s).1 →
      handleDepart cfg s e =
        scheduleEvent (getTravelTime cfg edge.base_travel_time s).2
          { time := s.current_time, truck_id := t.id, node_id := e.node_id,
            event_type := EventType.START_REST } ∧
      (handleDepart cfg s e).trucks = s.trucks) ∧
    (∀ (s : EngineState) (e : Event) (t : Truck),
      findVal s.trucks e.truck_id = some t →
      ∃ t1 : Truck,
        handleEndRest cfg s e =
          scheduleEvent { s with trucks := setKey s.trucks e.truck_id t1 }
            { time := s.current_time, truck_id := t.id, node_id := e.node_id,
              event_type := EventType.DEPART_NODE } ∧
        t1.driving_time_since_rest = 0) := by
  refine ⟨?_, ?_, ?_⟩
  · intro s hs k t hf
    have hb := (reachable_trucksOK cfg nodes0 seeds htravel s hs).of_findVal hf
    refine le_trans hb.2 (max_le ?_ ?_)
    · exact le_add_of_nonneg_right hL
    · exact le_add_of_nonneg_left (by norm_num)
  · intro s e t nxt edge hf hroute hidx hget hedge hpos hover
    have hEq : handleDepart cfg s e =
        scheduleEvent (getTravelTime cfg edge.base_travel_time s).2
          { time := s.current_time, truck_id := t.id, node_id := e.node_id,
            event_type := EventType.START_REST } := by
      unfold handleDepart
      rw [hf]
      dsimp only
      rw [if_neg hroute, if_pos hidx]
      rw [hget]
      dsimp only
      rw [hedge]
      dsimp only
      rw [if_pos ⟨hpos, hover⟩, getTravelTime_snd]
    refine ⟨hEq, ?_⟩
    rw [hEq, getTravelTime_snd]
    rfl
  · intro s e t hf
    refine ⟨{ t with
      is_resting := false
      driving_time_since_rest := 0
      status :=
        if t.assigned_order_id.isSome ∧ t.previous_status.isSome then
          match t.previous_status with
          | some ps =>
            if ps = TruckStatus.EN_ROUTE_TO_PICKUP ∨ ps = TruckStatus.EN_ROUTE_TO_DELIVERY
            then ps
            else TruckStatus.EN_ROUTE_TO_DELIVERY
          | none => TruckStatus.IDLE
        else TruckStatus.IDLE
      previous_status := none }, ?_, rfl⟩
    unfold handleEndRest
    rw [hf]

/-- Chain-graph configuration with a constant draw stream (every draw is
1): every travel time is `max 1 (10 * (1 + 1)) = 20` and the disruption
spike (probability 0.05) never fires since `1 < 1/20` is false. -/
def cfgRest : Config :=
  { getEdge := chainGetEdge
    sp := chainSp
    draws := fun _ => 1 }

theorem cfgRest_travel_le (u v : String) (edge : Edge) (s1 : EngineState)
    (h : cfgRest.getEdge u v = some edge) :
    (getTravelTime cfgRest edge.base_travel_time s1).1 ≤ 20 := by
  have hb : edge.base_travel_time = 10 := by
    simp only [cfgRest, chainGetEdge] at h
    split at h
    · simp only [Option.some.injEq] at h
      rw [← h]
    · exact Option.noConfusion h
  rw [hb]
  unfold getTravelTime drawRand
  dsimp only
  rw [if_neg (by norm_num [cfgRest] : ¬(cfgRest.draws (s1.randIdx + 1) < 1 / 20))]
  simp only [cfgRest]
  norm_num [max_le_iff]

/-- Witness for C3 at the chain configuration with all draws 1 (travel
bound L = 20): after one step of a run seeded with a single spawn, the
spawned truck satisfies the 480 + L bound. -/
theorem rest_policy_bounds_driving_time_witness :
    ∃ t : Truck,
      findVal (stepFn cfgRest (pushAll (initState traceNodes) [mkSpawn "T1" "A"])).trucks
        "T1" = some t ∧
      t.driving_time_since_rest ≤ 480 + 20 := by
  have hfind : findVal
      (stepFn cfgRest (pushAll (initState traceNodes) [mkSpawn "T1" "A"])).trucks "T1" =
      some ⟨"T1", "A", [], 0, "general", 0, false, TruckStatus.IDLE, none, none, 0, 0⟩ := by
    norm_num +decide [stepFn, popMin, processEvent, handleTruckSpawn, dispatcherLogic,
      scheduleEvent, findVal, setKey, pushAll, initState, traceNodes, mkSpawn, cfgRest,
      nodeA, nodeB, nodeC, List.foldl]
  refine ⟨_, hfind, ?_⟩
  exact (rest_policy_bounds_driving_time cfgRest traceNodes [mkSpawn "T1" "A"] 20
    (by norm_num) cfgRest_travel_le).1 _ (Reachable.step _ Reachable.init) "T1" _ hfind

/-- C6 (amended): when the dispatcher assigns an order and the concatenated
pickup+delivery route has fewer than 2 nodes, `assign_order_to_truck` only
marks the order CANCELLED: no `order_assigned` event is scheduled (the
queue is unchanged) and the truck is untouched.  (The claim's parenthetical
is corrected separately: a missing truck→pickup path does not by itself
make the route shorter than 2 nodes — see the counterexample.) -/
theorem short_route_cancels_order (cfg : Config) (s : EngineState) (order : Order)
    (truck : Truck) (h : (planRoute cfg truck order).length < 2) :
    assignOrderToTruck cfg s order truck =
      { s with orders := setKey s.orders order.id { order with status := "CANCELLED" } } ∧
    (assignOrderToTruck cfg s order truck).event_queue = s.event_queue ∧
    (assignOrderToTruck cfg s order truck).trucks = s.trucks ∧
    findVal (assignOrderToTruck cfg s order truck).orders order.id =
      some { order with status := "CANCELLED" } := by
  have hEq : assignOrderToTruck cfg s order truck =
      { s with orders := setKey s.orders order.id { order with status := "CANCELLED" } } := by
    unfold assignOrderToTruck
    dsimp only
    rw [if_pos (Or.inr h)]
  refine ⟨hEq, ?_, ?_, ?_⟩
  · rw [hEq]
  · rw [hEq]
  · rw [hEq]
    exact findVal_setKey_self _ _ _

/-- Shortest-path oracle for the C6 witness: no path between any pair. -/
def cfgNoRoute : Config :=
  { getEdge := fun _ _ => none
    sp := fun _ _ => []
    draws := fun _ => 0 }

/-- An order O1 from node "O" to node "D". -/
def ordOD : Order :=
  { id := "O1", origin_node_id := "O", destination_node_id := "D", creation_time := 0 }

/-- A truck T1 standing at node "T" (away from the pickup). -/
def truckFar : Truck := { id := "T1", current_node_id := "T" }

/-- Witness for the amended C6: with no paths at all the planned route is
empty, and assignment only cancels the order. -/
theorem short_route_cancels_order_witness :
    assignOrderToTruck cfgNoRoute (initState []) ordOD truckFar =
      { initState [] with
        orders := setKey (initState []).orders ordOD.id { ordOD with status := "CANCELLED" } } :=
  (short_route_cancels_order cfgNoRoute (initState []) ordOD truckFar (by decide)).1

/-- Configuration for the C6 counterexample: no path from the truck's node
"T" to the pickup "O", but a pickup→destination path ["O", "X", "D"]. -/
def cfgNoPickupPath : Config :=
  { getEdge := fun _ _ => none
    sp := fun u v => if u = "O" ∧ v = "D" then ["O", "X", "D"] else []
    draws := fun _ => 0 }

/-- C6 counterexample: the claim says that when no path exists between the
truck and the pickup the order is cancelled with nothing scheduled and the
truck unchanged.  On the code, an empty truck→pickup path makes
`assign_order_to_truck` fall back to the delivery path alone: here the
route becomes ["O", "X", "D"] (3 nodes), the order is ASSIGNED rather than
cancelled, two events are scheduled, and the truck is modified. -/
theorem no_pickup_path_still_assigns :
    (cfgNoPickupPath.sp truckFar.current_node_id ordOD.origin_node_id = [] ∧
      truckFar.current_node_id ≠ ordOD.origin_node_id) ∧
    planRoute cfgNoPickupPath truckFar ordOD = ["O", "X", "D"] ∧
    (∃ o : Order,
      findVal (assignOrderToTruck cfgNoPickupPath (initState []) ordOD truckFar).orders
        "O1" = some o ∧ o.status = "ASSIGNED") ∧
    (assignOrderToTruck cfgNoPickupPath (initState []) ordOD truckFar).event_queue.length
      = 2 ∧
    findVal (assignOrderToTruck cfgNoPickupPath (initState []) ordOD truckFar).trucks
      "T1" ≠ findVal (initState []).trucks "T1" := by
  refine ⟨by decide, by decide, ⟨{ ordOD with status := "ASSIGNED" }, by decide, rfl⟩,
    by decide, by decide⟩

/-- `tsplib_parser.TSPNode`. -/
structure TSPNode : Type where
  id : ℤ
  x : ℚ
  y : ℚ
  deriving DecidableEq, Repr

/-- Python `str.strip()` at the character level (the standard library's
`String.trim` is positional and does not evaluate in the kernel, so the
embedding works on `String.data`). -/
def trimChars (cs : List Char) : List Char :=
  ((cs.dropWhile Char.isWhitespace).reverse.dropWhile Char.isWhitespace).reverse

/-- `str.strip()`. -/
def strTrim (s : String) : String := String.mk (trimChars s.data)

/-- Split a character list at every character satisfying `p`, keeping
empty groups (Python `str.split(sep)` semantics for a one-character
separator). -/
def splitOnPred (p : Char → Bool) (cs : List Char) : List (List Char) :=
  cs.foldr
    (fun ch acc =>
      match acc with
      | [] => if p ch then [[], []] else [[ch]]
      | cur :: rest => if p ch then [] :: cur :: rest else (ch :: cur) :: rest)
    [[]]

/-- Python `line.split()`: split on whitespace runs, dropping empty
tokens. -/
def splitWs (s : String) : List String :=
  ((splitOnPred Char.isWhitespace s.data).map String.mk).filter
    (fun t => decide (t ≠ ""))

/-- Python `line.split(":")`. -/
def splitColon (s : String) : List String :=
  (splitOnPred (fun ch => decide (ch = ':')) s.data).map String.mk

/-- The digits-only core of Python `int(...)`. -/
def digitsToNat (cs : List Char) : Option ℕ :=
  if cs ≠ [] ∧ cs.all Char.isDigit then
    some (cs.foldl (fun n c => n * 10 + (c.toNat - '0'.toNat)) 0)
  else none

/-- Python `int(token)` on the numerals TSPLIB files use: surrounding
whitespace, an optional sign, then digits (Python's underscores and bases
are outside this subset). -/
def strToInt (s : String) : Option ℤ :=
  match trimChars s.data with
  | '-' :: rest => (digitsToNat rest).map (fun n => -(n : ℤ))
  | '+' :: rest => (digitsToNat rest).map (fun n => (n : ℤ))
  | cs => (digitsToNat cs).map (fun n => (n : ℤ))

/-- Split at the decimal point, for Python `float(...)`. -/
def splitDot (s : String) : List String :=
  (splitOnPred (fun ch => decide (ch = '.')) s.data).map String.mk

/-- Python `float(token)` on plain decimal numerals: an integer part,
optionally a decimal point and fraction digits. -/
def parseFloatQ (s : String) : Option ℚ :=
  match splitDot s with
  | [intPart] => (strToInt intPart).map (fun n => (n : ℚ))
  | [intPart, fracPart] =>
    match strToInt intPart, digitsToNat fracPart.data with
    | some n, some f =>
      let sign : ℚ := if intPart.data.head? = some '-' then -1 else 1
      some ((n : ℚ) + sign * (f : ℚ) / (10 : ℚ) ^ fracPart.length)
    | _, _ => none
  | _ => none

/-- Parser state of `parse_tsplib`: the problem name, the
`in_coord_section` flag and the nodes collected so far. -/
structure PState : Type where
  name : String
  in_coord : Bool
  nodes : List TSPNode
  deriving DecidableEq, Repr

/-- One iteration of the `for line in f` loop of `parse_tsplib`: strip the
line; skip blank lines and lines equal to `EOF` (the source uses
`continue`, not `break`); `NAME` headers set the name from the text after
the last colon; `NODE_COORD_SECTION` enters coordinate mode; in coordinate
mode a line with at least 3 whitespace-separated tokens contributes a node
when id/x/y all parse (a `ValueError` skips the line). -/
def parseTsplibLine (st : PState) (rawLine : String) : PState :=
  let line := strTrim rawLine
  if line = "" ∨ line = "EOF" then st
  else if "NAME".data.isPrefixOf line.data then
    { st with name := strTrim ((splitColon line).getLastD "") }
  else if line = "NODE_COORD_SECTION" then
    { st with in_coord := true }
  else if st.in_coord then
    let parts := splitWs line
    if parts.length ≥ 3 then
      match (parts.get? 0).bind strToInt, (parts.get? 1).bind parseFloatQ,
            (parts.get? 2).bind parseFloatQ with
      | some i, some x, some y => { st with nodes := st.nodes ++ [⟨i, x, y⟩] }
      | _, _, _ => st
    else st
  else st

/-- `parse_tsplib` over the file's lines: fold the line handler from the
initial state (`name = "unknown"`, not in coordinate mode, no nodes). -/
def parseTsplib (lines : List String) : String × List TSPNode :=
  let st := lines.foldl parseTsplibLine ⟨"unknown", false, []⟩
  (st.name, st.nodes)

/-- The spec's error kind for unparsable TSPLIB input (the source raises
`ValueError`). -/
inductive ParseError : Type
  | InvalidFormat
  deriving DecidableEq, Repr

/-- The TSPLIB ingestion entry (`GraphBuilder.create_from_tsplib`, lines
153-156): parse, then fail when the node list is empty — `raise
ValueError(f"No nodes found in ...")`, the spec's `InvalidFormat`.  On
success the parsed data is handed to the rest of the construction
(modelled separately in the graph-builder section). -/
def createFromTsplib (lines : List String) : Except ParseError (String × List TSPNode) :=
  let parsed := parseTsplib lines
  if parsed.2 = [] then Except.error ParseError.InvalidFormat
  else Except.ok parsed

/-- C7: a TSPLIB input from which no coordinate line could be parsed does
not silently yield an empty coordinate list to the caller of the TSPLIB
ingestion: `create_from_tsplib` raises the InvalidFormat error
(`ValueError` in the source) whenever the parse produced no nodes. -/
theorem no_coords_fails_invalid_format (lines : List String)
    (h : (parseTsplib lines).2 = []) :
    createFromTsplib lines = Except.error ParseError.InvalidFormat := by
  unfold createFromTsplib
  dsimp only
  rw [if_pos h]

/-- Witness for C7: a header-only input parses to zero nodes and the
ingestion fails with InvalidFormat. -/
theorem no_coords_fails_invalid_format_witness :
    (parseTsplib ["NAME : kroA100", "EOF"]).2 = [] ∧
    createFromTsplib ["NAME : kroA100", "EOF"] = Except.error ParseError.InvalidFormat :=
  ⟨by decide, no_coords_fails_invalid_format _ (by decide)⟩

/-- C8 counterexample: the parser does not stop on `EOF` — the line is
merely skipped (`continue`) — so a coordinate line after `EOF` still
contributes a node: appending `["EOF", "2 1 1"]` to a one-node file yields
two nodes.  Under the claim the longer parse would also return only the
node with id 1. -/
theorem coord_line_after_eof_contributes :
    (parseTsplib ["NODE_COORD_SECTION", "1 0 0"]).2 = [⟨1, 0, 0⟩] ∧
    (parseTsplib ["NODE_COORD_SECTION", "1 0 0", "EOF", "2 1 1"]).2 =
      [⟨1, 0, 0⟩, ⟨2, 1, 1⟩] := by
  constructor <;> decide

/-- C8 (amended): lines equal to `EOF` are ignored rather than terminating
the parse — parsing any file equals parsing the same file with the `EOF`
line removed, so coordinate lines after `EOF` contribute exactly as if the
marker were absent. -/
theorem eof_line_is_skipped (pre post : List String) :
    parseTsplib (pre ++ "EOF" :: post) = parseTsplib (pre ++ post) := by
  unfold parseTsplib
  rw [List.foldl_append, List.foldl_append, List.foldl_cons]
  have h : ∀ st : PState, parseTsplibLine st "EOF" = st := by
    intro st
    unfold parseTsplibLine
    rw [if_pos (by decide : strTrim "EOF" = "" ∨ strTrim "EOF" = "EOF")]
  rw [h]

/-- The graph builder's two maps (`GraphBuilder.nodes` and
`GraphBuilder.edges`; the mirrored networkx adjacency is derived state and
not modelled separately). -/
structure GB : Type where
  nodes : List (String × Node)
  edges : List ((String × String) × Edge)
  deriving DecidableEq, Repr

/-- `GraphBuilder.add_edge`: `self.edges[(edge.source, edge.target)] =
edge`. -/
def addEdge (g : GB) (e : Edge) : GB :=
  { g with edges := setKey g.edges (e.source, e.target) e }

/-- `GraphBuilder.__init__` followed by the `add_node` loop: node map
keyed by id, no edges.  Node attributes (random positions, kinds,
capacities) are inputs here; the claims hold for every assignment. -/
def initGB (nodes : List Node) : GB :=
  { nodes := nodes.map (fun n => (n.id, n)), edges := [] }

/-- `haversine_distance` applied to the stored coordinates of two nodes is
float trigonometry (`sin`, `cos`, `atan2`, `sqrt`), which has no
computable counterpart over `ℚ`; it is modelled as an abstract distance
oracle `d` on node ids.  The only property of the source function the
claims rely on is symmetry in its two endpoints, which the mathematical
haversine has — `sin²(Δφ/2)` and `cos φ₁ · cos φ₂ · sin²(Δλ/2)` are
invariant under swapping the endpoints — so theorems take `d u v = d v u`
as a hypothesis and witnesses instantiate `d` concretely.  The Euclidean
metric used only for neighbour *selection* in the TSPLIB construction is
abstracted the same way (as part of the selection function `sel`). -/
def DistOracle : Type := String → String → ℚ

/-- Neighbour loop body of `create_from_tsplib` (lines 227-250): compute
`dist_km` by haversine and `base_time = dist_km / 50 * 60`, then add the
forward and the reverse edge, each only if absent.  Both constructor calls
in the source use keyword arguments, so the fields land correctly here. -/
def tsplibAddNeighbor (d : DistOracle) (g : GB) (u v : Node) : GB :=
  let dist_km := d u.id v.id
  let base_time := dist_km / 50 * 60
  let g1 :=
    if findVal g.edges (u.id, v.id) = none then
      addEdge g { source := u.id, target := v.id,
                  base_travel_time := base_time, distance_km := dist_km }
    else g
  if findVal g1.edges (v.id, u.id) = none then
    addEdge g1 { source := v.id, target := u.id,
                 base_travel_time := base_time, distance_km := dist_km }
  else g1

/-- Neighbour loop body of `create_random_graph` (lines 81-100):
`base_time = dist / 60 * 60` (60 km/h), forward edge added
unconditionally (overwriting), reverse edge only if absent; both
constructor calls use keyword arguments. -/
def randomAddNeighbor (d : DistOracle) (g : GB) (u v : Node) : GB :=
  let dist := d u.id v.id
  let base_time := dist / 60 * 60
  let g1 := addEdge g { source := u.id, target := v.id,
                        base_travel_time := base_time, distance_km := dist }
  if findVal g1.edges (v.id, u.id) = none then
    addEdge g1 { source := v.id, target := u.id,
                 base_travel_time := base_time, distance_km := dist }
  else g1

/-- A stable insertion sort by a rational key, standing in for Python's
`list.sort(key=...)`. -/
def insertSorted (key : Node → ℚ) (x : Node) : List Node → List Node
  | [] => [x]
  | y :: ys => if key x < key y then x :: y :: ys else y :: insertSorted key x ys

/-- Sort a node list by a rational key. -/
def sortByKey (key : Node → ℚ) : List Node → List Node
  | [] => []
  | x :: xs => insertSorted key x (sortByKey key xs)

/-- `distances.sort(key=lambda t: t[0]); nearest = distances[:k]`: sort
the other nodes by the given metric from `u` and keep the first `k`.  The
metric is the haversine oracle for the random construction and the
original-coordinate Euclidean distance for the TSPLIB construction. -/
def knnSelect (metric : Node → Node → ℚ) (k : ℕ) (nodes : List Node) (u : Node) :
    List Node :=
  (sortByKey (fun v => metric u v) (nodes.filter (fun v => decide (v.id ≠ u.id)))).take k

/-- The k-NN edge phase of `create_from_tsplib`: for every node, add edges
to its selected neighbours. -/
def knnEdgesTsplib (d : DistOracle) (sel : Node → List Node) (nodes : List Node)
    (g : GB) : GB :=
  nodes.foldl (fun g1 u => (sel u).foldl (fun g2 v => tsplibAddNeighbor d g2 u v) g1) g

/-- The k-NN edge phase of `create_random_graph`. -/
def knnEdgesRandom (d : DistOracle) (sel : Node → List Node) (nodes : List Node)
    (g : GB) : GB :=
  nodes.foldl (fun g1 u => (sel u).foldl (fun g2 v => randomAddNeighbor d g2 u v) g1) g

/-- Undirected adjacency of the edge map (`graph.to_undirected()`). -/
def adjacent (edges : List ((String × String) × Edge)) (a b : String) : Bool :=
  (findVal edges (a, b)).isSome || (findVal edges (b, a)).isSome

/-- Grow a connected component by breadth-first expansion with explicit
fuel (the node count bounds the number of rounds). -/
def growComponent (edges : List ((String × String) × Edge)) (ids : List String) :
    ℕ → List String → List String
  | 0, comp => comp
  | fuel + 1, comp =>
    let nxt := ids.filter (fun m => decide (m ∉ comp) && comp.any (fun c => adjacent edges c m))
    if nxt = [] then comp else growComponent edges ids fuel (comp ++ nxt)

/-- `networkx.connected_components` of the undirected projection:
components listed in the order their first node appears in the node map. -/
def connectedComponents (ids : List String)
    (edges : List ((String × String) × Edge)) : List (List String) :=
  (ids.foldl
    (fun (acc : List (List String) × List String) n =>
      if n ∈ acc.2 then acc
      else
        let comp := growComponent edges ids ids.length [n]
        (acc.1 ++ [comp], acc.2 ++ comp))
    ([], [])).1

/-- The closest-pair search of the repair loop: scan `comp_a × comp_b`
keeping the first strict improvement, as the source's `<` test does. -/
def bestPair (d : DistOracle) (compA compB : List String) :
    Option (String × String × ℚ) :=
  compA.foldl
    (fun acc u =>
      compB.foldl
        (fun acc2 v =>
          match acc2 with
          | none => some (u, v, d u v)
          | some (_, _, d0) => if d u v < d0 then some (u, v, d u v) else acc2)
        acc)
    none

/-- One iteration of the connectivity-repair loop (`_ensure_connectivity`
lines 263-284 with speed 50, and its inline copy in `create_random_graph`
lines 107-134 with speed 60): find the closest pair between two
components and add both directed edges.  The source constructs these
edges with positional arguments — `Edge(u.id, v.id, min_dist, base_time)`
— although the dataclass field order is `(source, target,
base_travel_time, distance_km)`; the embedding mirrors the positional
call exactly via `Edge.mk`. -/
def repairStep (d : DistOracle) (speed : ℚ) (g : GB) (compA compB : List String) : GB :=
  match bestPair d compA compB with
  | none => g
  | some (u, v, min_dist) =>
    let base_time := min_dist / speed * 60
    let g1 := addEdge g (Edge.mk u v min_dist base_time "truck")
    addEdge g1 (Edge.mk v u min_dist base_time "truck")

/-- `_ensure_connectivity` (and the inline repair of the random
construction, via the `speed` parameter): compute the components of the
undirected projection once, then connect each consecutive pair of
components at its closest node pair; a single component makes the loop
empty, matching the early `return`. -/
def ensureConnectivity (d : DistOracle) (speed : ℚ) (g : GB) : GB :=
  let comps := connectedComponents (g.nodes.map Prod.fst) g.edges
  (comps.zip comps.tail).foldl (fun g1 p => repairStep d speed g1 p.1 p.2) g

/-- `GraphBuilder.create_from_tsplib` after parsing and node creation:
k-NN edges at 50 km/h, then connectivity repair. -/
def createFromTsplibGraph (d : DistOracle) (sel : Node → List Node)
    (nodes : List Node) : GB :=
  ensureConnectivity d 50 (knnEdgesTsplib d sel nodes (initGB nodes))

/-- `GraphBuilder.create_random_graph` after node creation: k-NN edges at
60 km/h, then the inline connectivity repair. -/
def createRandomGraph (d : DistOracle) (sel : Node → List Node)
    (nodes : List Node) : GB :=
  ensureConnectivity d 60 (knnEdgesRandom d sel nodes (initGB nodes))

/-- Every directed edge of the map has its reverse present with equal
weights. -/
def EdgeSymm (E : List ((String × String) × Edge)) : Prop :=
  ∀ (u v : String) (e : Edge), findVal E (u, v) = some e →
    ∃ e2 : Edge, findVal E (v, u) = some e2 ∧
      e2.distance_km = e.distance_km ∧ e2.base_travel_time = e.base_travel_time

/-- Every edge of the map carries the 60 km/h canonical weights of its own
key — the random construction computes every weight from the haversine of
the edge's endpoints, so overwriting an edge never changes its weights. -/
def EdgesCanon (d : DistOracle) (E : List ((String × String) × Edge)) : Prop :=
  ∀ (u v : String) (e : Edge), findVal E (u, v) = some e →
    e.distance_km = d u v ∧ e.base_travel_time = d u v / 60 * 60

theorem foldl_induction {α β : Type} (f : α → β → α) (P : α → Prop) (l : List β) (a : α)
    (h0 : P a) (hstep : ∀ x b, P x → P (f x b)) : P (l.foldl f a) := by
  induction l generalizing a with
  | nil => exact h0
  | cons b bs ih => exact ih _ (hstep a b h0)

theorem prod_ne_swap {a b u v : String} (h : (u, v) ≠ (a, b)) : (v, u) ≠ (b, a) := by
  intro hc
  apply h
  rw [Prod.mk.injEq] at hc ⊢
  exact ⟨hc.2, hc.1⟩

theorem edgeSymm_set_pair {E : List ((String × String) × Edge)} {a b : String}
    {e1 e2 : Edge} (hE : EdgeSymm E) (hd : e1.distance_km = e2.distance_km)
    (hb : e1.base_travel_time = e2.base_travel_time) :
    EdgeSymm (setKey (setKey E (a, b) e1) (b, a) e2) := by
  intro u v e hf
  by_cases h2 : (u, v) = (b, a)
  · rw [h2, findVal_setKey_self] at hf
    injection hf with hf
    subst hf
    rw [Prod.mk.injEq] at h2
    obtain ⟨hu, hv⟩ := h2
    rw [hv, hu]
    by_cases hab : ((a : String), (b : String)) = (b, a)
    · rw [hab, findVal_setKey_self]
      exact ⟨e2, rfl, rfl, rfl⟩
    · rw [findVal_setKey_other _ _ _ _ hab, findVal_setKey_self]
      exact ⟨e1, rfl, hd, hb⟩
  · rw [findVal_setKey_other _ _ _ _ h2] at hf
    by_cases h1 : (u, v) = (a, b)
    · rw [h1, findVal_setKey_self] at hf
      injection hf with hf
      subst hf
      rw [Prod.mk.injEq] at h1
      obtain ⟨hu, hv⟩ := h1
      rw [hv, hu, findVal_setKey_self]
      exact ⟨e2, rfl, hd.symm, hb.symm⟩
    · rw [findVal_setKey_other _ _ _ _ h1] at hf
      obtain ⟨e2', hfe, hde, hbe⟩ := hE u v e hf
      rw [findVal_setKey_other _ _ _ _ (prod_ne_swap h1),
        findVal_setKey_other _ _ _ _ (prod_ne_swap h2)]
      exact ⟨e2', hfe, hde, hbe⟩

theorem edgesCanon_setKey {d : DistOracle} {E : List ((String × String) × Edge)}
    {a b : String} {e : Edge} (hC : EdgesCanon d E) (hdist : e.distance_km = d a b)
    (hbase : e.base_travel_time = d a b / 60 * 60) :
    EdgesCanon d (setKey E (a, b) e) := by
  intro x y e' hf
  by_cases h : (x, y) = (a, b)
  · rw [h, findVal_setKey_self] at hf
    injection hf with hf
    subst hf
    rw [Prod.mk.injEq] at h
    obtain ⟨hx, hy⟩ := h
    subst hx
    subst hy
    exact ⟨hdist, hbase⟩
  · rw [findVal_setKey_other _ _ _ _ h] at hf
    exact hC x y e' hf

theorem tsplibAddNeighbor_symm (d : DistOracle) (g : GB) (u v : Node)
    (hE : EdgeSymm g.edges) : EdgeSymm (tsplibAddNeighbor d g u v).edges := by
  unfold tsplibAddNeighbor addEdge
  dsimp only
  split
  · rename_i hfwd
    split
    · exact edgeSymm_set_pair hE rfl rfl
    · rename_i hrev
      by_cases huv : u.id = v.id
      · rw [huv] at hfwd ⊢
        intro x y e hf
        by_cases hxy : (x, y) = (v.id, v.id)
        · rw [hxy, findVal_setKey_self] at hf
          injection hf with hf
          subst hf
          rw [Prod.mk.injEq] at hxy
          obtain ⟨hx, hy⟩ := hxy
          subst hx
          subst hy
          rw [findVal_setKey_self]
          exact ⟨_, rfl, rfl, rfl⟩
        · rw [findVal_setKey_other _ _ _ _ hxy] at hf
          obtain ⟨e2', hfe, hde, hbe⟩ := hE x y e hf
          have hyx : (y, x) ≠ (v.id, v.id) := by
            intro hc
            apply hxy
            rw [Prod.mk.injEq] at hc
            rw [hc.1, hc.2]
          rw [findVal_setKey_other _ _ _ _ hyx]
          exact ⟨e2', hfe, hde, hbe⟩
      · exfalso
        apply hrev
        rw [findVal_setKey_other]
        · cases hrev0 : findVal g.edges (v.id, u.id) with
          | none => rfl
          | some w =>
            obtain ⟨w2, hw2, _⟩ := hE v.id u.id w hrev0
            rw [hfwd] at hw2
            exact Option.noConfusion hw2
        · intro hc
          apply huv
          rw [Prod.mk.injEq] at hc
          exact hc.2
  · rename_i hfwd
    split
    · rename_i hrev
      exfalso
      push_neg at hfwd
      obtain ⟨w, hw⟩ := Option.ne_none_iff_exists'.mp hfwd
      obtain ⟨w2, hw2, _⟩ := hE u.id v.id w hw
      rw [hrev] at hw2
      exact Option.noConfusion hw2
    · exact hE

theorem randomAddNeighbor_inv (d : DistOracle) (hd : ∀ a b, d a b = d b a)
    (g : GB) (u v : Node) (hE : EdgeSymm g.edges) (hC : EdgesCanon d g.edges) :
    EdgeSymm (randomAddNeighbor d g u v).edges ∧
    EdgesCanon d (randomAddNeighbor d g u v).edges := by
  unfold randomAddNeighbor addEdge
  dsimp only
  split
  · constructor
    · exact edgeSymm_set_pair hE rfl rfl
    · refine edgesCanon_setKey (edgesCanon_setKey hC rfl rfl) ?_ ?_
      · exact hd u.id v.id
      · rw [hd u.id v.id]
  · rename_i hrev
    constructor
    · intro x y e hf
      by_cases hxy : (x, y) = (u.id, v.id)
      · rw [hxy, findVal_setKey_self] at hf
        injection hf with hf
        subst hf
        rw [Prod.mk.injEq] at hxy
        obtain ⟨hx, hy⟩ := hxy
        subst hx
        subst hy
        by_cases hvu : ((v.id : String), (u.id : String)) = (u.id, v.id)
        · rw [hvu, findVal_setKey_self]
          exact ⟨_, rfl, rfl, rfl⟩
        · rw [findVal_setKey_other _ _ _ _ hvu]
          push_neg at hrev
          obtain ⟨w, hw0⟩ := Option.ne_none_iff_exists'.mp (by
            intro hc
            apply hrev
            rw [findVal_setKey_other _ _ _ _ hvu]
            exact hc)
          have hwc := hC v.id u.id w hw0
          refine ⟨w, hw0, ?_, ?_⟩
          · rw [hwc.1, hd v.id u.id]
          · rw [hwc.2, hd v.id u.id]
      · rw [findVal_setKey_other _ _ _ _ hxy] at hf
        obtain ⟨e2', hfe, hde, hbe⟩ := hE x y e hf
        by_cases hyx : (y, x) = (u.id, v.id)
        · rw [hyx, findVal_setKey_self]
          have hxy2 : (x, y) = (v.id, u.id) := by
            obtain ⟨h1, h2⟩ := Prod.mk.injEq .. ▸ hyx
            rw [h1, h2]
          rw [hxy2] at hf
          have hec := hC v.id u.id e hf
          refine ⟨_, rfl, ?_, ?_⟩
          · rw [hec.1, hd v.id u.id]
          · rw [hec.2, hd v.id u.id]
        · rw [findVal_setKey_other _ _ _ _ hyx]
          exact ⟨e2', hfe, hde, hbe⟩
    · exact edgesCanon_setKey hC rfl rfl

theorem bestPair_dist (d : DistOracle) (compA compB : List String) :
    ∀ (u v : String) (m : ℚ), bestPair d compA compB = some (u, v, m) → m = d u v := by
  unfold bestPair
  refine foldl_induction _
    (fun acc => ∀ (u v : String) (m : ℚ), acc = some (u, v, m) → m = d u v) _ _
    (fun u v m h => Option.noConfusion h) ?_
  intro acc a hacc
  refine foldl_induction _
    (fun acc2 => ∀ (u v : String) (m : ℚ), acc2 = some (u, v, m) → m = d u v) _ _
    hacc ?_
  intro acc2 b hacc2 u v m hm
  cases acc2 with
  | none =>
    dsimp only at hm
    injection hm with hm
    rw [Prod.mk.injEq] at hm
    obtain ⟨h1, h2⟩ := hm
    rw [Prod.mk.injEq] at h2
    obtain ⟨h3, h4⟩ := h2
    subst h1
    subst h3
    exact h4.symm
  | some p =>
    obtain ⟨u0, v0, m0⟩ := p
    dsimp only at hm
    split at hm
    · injection hm with hm
      rw [Prod.mk.injEq] at hm
      obtain ⟨h1, h2⟩ := hm
      rw [Prod.mk.injEq] at h2
      obtain ⟨h3, h4⟩ := h2
      subst h1
      subst h3
      exact h4.symm
    · exact hacc2 u v m hm

theorem repairStep_symm (d : DistOracle) (speed : ℚ) (g : GB)
    (compA compB : List String) (hE : EdgeSymm g.edges) :
    EdgeSymm (repairStep d speed g compA compB).edges := by
  unfold repairStep addEdge
  dsimp only
  split
  · exact hE
  · exact edgeSymm_set_pair hE rfl rfl

theorem repairStep_canon (d : DistOracle) (hd : ∀ a b, d a b = d b a) (g : GB)
    (compA compB : List String) (hC : EdgesCanon d g.edges) :
    EdgesCanon d (repairStep d 60 g compA compB).edges := by
  unfold repairStep addEdge
  dsimp only
  split
  · exact hC
  · rename_i p u v m hbp
    have hm : m = d u v := bestPair_dist d compA compB u v m hbp
    have h60 : m / 60 * 60 = m := div_mul_cancel₀ m (by norm_num)
    refine edgesCanon_setKey (edgesCanon_setKey hC ?_ ?_) ?_ ?_
    · dsimp only
      rw [h60, hm]
    · dsimp only
      rw [← hm, h60]
    · dsimp only
      rw [h60, hm, hd u v]
    · dsimp only
      rw [← hd u v, ← hm, h60]

theorem ensureConnectivity_symm (d : DistOracle) (speed : ℚ) (g : GB)
    (hE : EdgeSymm g.edges) : EdgeSymm (ensureConnectivity d speed g).edges := by
  unfold ensureConnectivity
  dsimp only
  exact foldl_induction _ (fun g1 : GB => EdgeSymm g1.edges) _ _ hE
    (fun g1 (p : List String × List String) h => repairStep_symm d speed g1 p.1 p.2 h)

/-- C9: after graph construction — random or TSPLIB, connectivity repair
included — every directed edge has its reverse present with equal
`distance_km` and equal `base_travel_time`.  The distance oracle `d`
stands for the haversine on the stored coordinates and is assumed
symmetric (as the haversine formula is); the theorem holds for every
neighbour selection and node list.  (In the repair the two weights end up
in swapped fields — C2 — but both directions of each added pair still
carry identical values, so bidirectionality is unaffected.) -/
theorem graph_edges_bidirectional (d : DistOracle) (hd : ∀ a b, d a b = d b a)
    (selT selR : Node → List Node) (nodesT nodesR : List Node) :
    EdgeSymm (createFromTsplibGraph d selT nodesT).edges ∧
    EdgeSymm (createRandomGraph d selR nodesR).edges := by
  constructor
  · unfold createFromTsplibGraph
    refine ensureConnectivity_symm d 50 _ ?_
    unfold knnEdgesTsplib
    refine foldl_induction _ (fun g1 : GB => EdgeSymm g1.edges) _ _ ?_ ?_
    · intro u v e hf
      simp [initGB, findVal] at hf
    · intro g1 u h
      exact foldl_induction _ (fun g2 : GB => EdgeSymm g2.edges) _ _ h
        (fun g2 v h2 => tsplibAddNeighbor_symm d g2 u v h2)
  · unfold createRandomGraph
    have hmain : EdgeSymm (knnEdgesRandom d selR nodesR (initGB nodesR)).edges ∧
        EdgesCanon d (knnEdgesRandom d selR nodesR (initGB nodesR)).edges := by
      unfold knnEdgesRandom
      refine foldl_induction _
        (fun g1 : GB => EdgeSymm g1.edges ∧ EdgesCanon d g1.edges) _ _ ⟨?_, ?_⟩ ?_
      · intro u v e hf
        simp [initGB, findVal] at hf
      · intro u v e hf
        simp [initGB, findVal] at hf
      · intro g1 u h
        exact foldl_induction _
          (fun g2 : GB => EdgeSymm g2.edges ∧ EdgesCanon d g2.edges) _ _ h
          (fun g2 v h2 => randomAddNeighbor_inv d hd g2 u v h2.1 h2.2)
    unfold ensureConnectivity
    dsimp only
    exact (foldl_induction _
      (fun g1 : GB => EdgeSymm g1.edges ∧ EdgesCanon d g1.edges) _ _ hmain
      (fun g1 (p : List String × List String) h => ⟨repairStep_symm d 60 g1 p.1 p.2 h.1,
        repairStep_canon d hd g1 p.1 p.2 h.2⟩)).1

/-- Witness for C9 at a concrete symmetric distance oracle (constantly 1),
a concrete selection and a concrete two-node list. -/
theorem graph_edges_bidirectional_witness :
    EdgeSymm (createFromTsplibGraph (fun _ _ => 1) (fun _ => [nodeB]) [nodeA, nodeB]).edges :=
  (graph_edges_bidirectional (fun _ _ => 1) (fun _ _ => rfl) (fun _ => [nodeB])
    (fun _ => [nodeB]) [nodeA, nodeB] [nodeA, nodeB]).1

/-- Four nodes in two distant clusters, for the connectivity-repair run. -/
def nodeP1 : Node := { id := "P1", type := NodeType.customer, lat := 50, lon := 10 }

/-- Second node of the first cluster. -/
def nodeP2 : Node := { id := "P2", type := NodeType.customer, lat := 50, lon := 11 }

/-- First node of the second cluster. -/
def nodeQ1 : Node := { id := "Q1", type := NodeType.customer, lat := 52, lon := 10 }

/-- Second node of the second cluster. -/
def nodeQ2 : Node := { id := "Q2", type := NodeType.customer, lat := 52, lon := 11 }

/-- The node list of the repair run. -/
def nodesC2 : List Node := [nodeP1, nodeP2, nodeQ1, nodeQ2]

/-- Concrete symmetric distances: 1 km inside each cluster, 50 km between
P2 and Q1 (the closest inter-cluster pair), 100 km otherwise. -/
def dC2 : DistOracle := fun a b =>
  if (a = "P1" ∧ b = "P2") ∨ (a = "P2" ∧ b = "P1") then 1
  else if (a = "Q1" ∧ b = "Q2") ∨ (a = "Q2" ∧ b = "Q1") then 1
  else if (a = "P2" ∧ b = "Q1") ∨ (a = "Q1" ∧ b = "P2") then 50
  else 100

/-- 1-nearest-neighbour selection under the concrete distances: each
cluster connects internally, leaving two components. -/
def selC2 : Node → List Node := knnSelect (fun u v => dC2 u.id v.id) 1 nodesC2

/-- C2: the claim fails on the code.  In the TSPLIB construction with two
k-NN components, `_ensure_connectivity` repairs connectivity by the pair
(P2, Q1) at haversine distance 50 km; with `base_time = 50 / 50 * 60 =
60`, the claim (and the k-NN rule) requires `base_travel_time = 60` and
`distance_km = 50`, but the positional constructor call
`Edge(u.id, v.id, min_dist, base_time)` lands `min_dist` in
`base_travel_time` and `base_time` in `distance_km` (the dataclass field
order is `(source, target, base_travel_time, distance_km)`): the added
edge has `base_travel_time = 50` and `distance_km = 60`. -/
theorem connectivity_repair_swaps_time_and_distance :
    findVal (createFromTsplibGraph dC2 selC2 nodesC2).edges ("P2", "Q1") =
      some (Edge.mk "P2" "Q1" 50 60 "truck") ∧
    dC2 "P2" "Q1" = 50 ∧
    (∀ e : Edge,
      findVal (createFromTsplibGraph dC2 selC2 nodesC2).edges ("P2", "Q1") = some e →
      ¬(e.base_travel_time = e.distance_km / 50 * 60) ∧
      ¬(e.distance_km = dC2 "P2" "Q1")) := by
  have hmain : findVal (createFromTsplibGraph dC2 selC2 nodesC2).edges ("P2", "Q1") =
      some (Edge.mk "P2" "Q1" 50 60 "truck") := by
    norm_num +decide [createFromTsplibGraph, ensureConnectivity, knnEdgesTsplib,
      tsplibAddNeighbor, addEdge, initGB, connectedComponents, growComponent, adjacent,
      bestPair, repairStep, findVal, setKey, knnSelect, sortByKey, insertSorted,
      dC2, nodesC2, selC2, nodeP1, nodeP2, nodeQ1, nodeQ2, List.foldl]
  refine ⟨hmain, by norm_num +decide [dC2], ?_⟩
  intro e he
  rw [hmain] at he
  injection he with he
  subst he
  constructor
  · norm_num
  · norm_num +decide [dC2]

end SupplyChain
